import Mathlib

/-!
Shallow embedding of the NuttX STM32 I2C driver
(`arch/arm/src/stm32/stm32_i2c_alt.c`): the interrupt-service state
machine `stm32_i2c_isr`, the polled completion wait
`stm32_i2c_sem_waitdone`, the status classification tail of
`stm32_i2c_process`, the clock configurator `stm32_i2c_setclock` and the
trace recorder `stm32_i2c_traceevent`.

Register accesses performed by the code are recorded as an explicit
effect trace (`RegOp` list); machine-integer truncation is modelled with
`% 2^w` where the C code can truncate.  Register bit constants and
message-flag constants mirror the STM32 reference-manual values used by
the chip header `stm32_i2c.h` and `nuttx/i2c.h`.
-/

/- ## Register offsets (chip header `stm32_i2c.h`) -/

def STM32_I2C_CR1_OFFSET : Nat := 0x0000
def STM32_I2C_CR2_OFFSET : Nat := 0x0004
def STM32_I2C_OAR1_OFFSET : Nat := 0x0008
def STM32_I2C_DR_OFFSET : Nat := 0x0010
def STM32_I2C_SR1_OFFSET : Nat := 0x0014
def STM32_I2C_SR2_OFFSET : Nat := 0x0018
def STM32_I2C_CCR_OFFSET : Nat := 0x001c
def STM32_I2C_TRISE_OFFSET : Nat := 0x0020

/- ## Register bits -/

def I2C_CR1_PE : Nat := 0x0001
def I2C_CR1_START : Nat := 0x0100
def I2C_CR1_STOP : Nat := 0x0200
def I2C_CR1_ACK : Nat := 0x0400
def I2C_CR1_POS : Nat := 0x0800
def I2C_CR1_PEC : Nat := 0x1000

def I2C_CR2_ITERREN : Nat := 0x0100
def I2C_CR2_ITEVFEN : Nat := 0x0200
def I2C_CR2_ITBUFEN : Nat := 0x0400

/-- `I2C_CR2_ALLINTS` is the union of the three interrupt-enable bits. -/
def I2C_CR2_ALLINTS : Nat := I2C_CR2_ITERREN ||| I2C_CR2_ITEVFEN ||| I2C_CR2_ITBUFEN

def I2C_SR1_SB : Nat := 0x0001
def I2C_SR1_ADDR : Nat := 0x0002
def I2C_SR1_BTF : Nat := 0x0004
def I2C_SR1_RXNE : Nat := 0x0040
def I2C_SR1_TXE : Nat := 0x0080
def I2C_SR1_BERR : Nat := 0x0100
def I2C_SR1_ARLO : Nat := 0x0200
def I2C_SR1_AF : Nat := 0x0400
def I2C_SR1_OVR : Nat := 0x0800
def I2C_SR1_PECERR : Nat := 0x1000
def I2C_SR1_TIMEOUT : Nat := 0x4000
def I2C_SR1_SMBALERT : Nat := 0x8000

/-- Union of the SR1 error bits, as defined by the chip header. -/
def I2C_SR1_ERRORMASK : Nat :=
  I2C_SR1_BERR ||| I2C_SR1_ARLO ||| I2C_SR1_AF ||| I2C_SR1_OVR |||
  I2C_SR1_PECERR ||| I2C_SR1_TIMEOUT ||| I2C_SR1_SMBALERT

def I2C_SR2_BUSY : Nat := 0x0002

def I2C_OAR1_ONE : Nat := 0x4000

def I2C_CCR_FS : Nat := 0x8000
def I2C_CCR_DUTY : Nat := 0x4000

/- ## i2c message flags (`nuttx/i2c.h`) -/

def I2C_M_READ : Nat := 0x0001
def I2C_M_TEN : Nat := 0x0002
def I2C_M_NORESTART : Nat := 0x0080

/- ## errno values returned by `stm32_i2c_process` -/

def errEIO : Nat := 5
def errEAGAIN : Nat := 11
def errENXIO : Nat := 6
def errEPROTO : Nat := 71
def errETIME : Nat := 62
def errEINTR : Nat := 4
def errEBUSY : Nat := 16
def errETIMEDOUT : Nat := 110

/- ## Effect trace: register operations performed through the register shim -/

/-- One register access performed through `stm32_i2c_getreg` /
`stm32_i2c_putreg` / `stm32_i2c_modifyreg`, identified by register offset. -/
inductive RegOp where
  | get (off : Nat)
  | put (off : Nat) (v : Nat)
  | modify (off : Nat) (clearbits setbits : Nat)
  deriving DecidableEq

/-- `stm32_i2c_sendstop`: `modifyreg(CR1, I2C_CR1_ACK, I2C_CR1_STOP)`. -/
def sendstopOp : RegOp := RegOp.modify STM32_I2C_CR1_OFFSET I2C_CR1_ACK I2C_CR1_STOP

/-- `stm32_i2c_sendstart`: `modifyreg(CR1, I2C_CR1_ACK, I2C_CR1_START)`. -/
def sendstartOp : RegOp := RegOp.modify STM32_I2C_CR1_OFFSET I2C_CR1_ACK I2C_CR1_START

/-- Protocol-relevant operations: data-register accesses and CR1 control
writes.  (Filters out status reads and CR2 interrupt-enable bookkeeping.) -/
def isKeyOp : RegOp → Bool
  | RegOp.get off => off == STM32_I2C_DR_OFFSET
  | RegOp.put off _ => off == STM32_I2C_DR_OFFSET
  | RegOp.modify off _ _ => off == STM32_I2C_CR1_OFFSET

def keyOps (ops : List RegOp) : List RegOp := ops.filter isKeyOp

/-- Number of data-register reads in an effect trace. -/
def drReads (ops : List RegOp) : Nat :=
  (ops.filter fun op => op == RegOp.get STM32_I2C_DR_OFFSET).length

/-- Whether an effect trace contains any register write (put or modify). -/
def hasRegWrite (ops : List RegOp) : Bool :=
  ops.any fun op =>
    match op with
    | RegOp.get _ => false
    | RegOp.put _ _ => true
    | RegOp.modify _ _ _ => true

/- ## Data model -/

/-- `struct i2c_msg_s`: one message of a transfer request. -/
structure I2cMsg where
  addr : Nat
  flags : Nat
  buffer : List Nat
  length : Nat
  deriving DecidableEq

def defaultMsg : I2cMsg := ⟨0, 0, [], 0⟩

/-- Interrupt handshake state (`enum stm32_intstate_e`). -/
inductive IntState where
  | idle
  | waiting
  | done
  deriving DecidableEq

/-- `struct stm32_i2c_priv_s`, the controller session state.

`msgv` holds the message list from the cursor position onward (the C
`priv->msgv` pointer); the empty list doubles for a `NULL` pointer.
`buf`/`pos` model `priv->ptr` as the current buffer plus an offset. -/
structure I2cState where
  msgv : List I2cMsg
  msgc : Nat
  buf : List Nat
  pos : Nat
  dcnt : Int
  flags : Nat
  check_addr_ACK : Bool
  total_msg_len : Nat
  intstate : IntState
  status : Nat
  deriving DecidableEq

/-- Hardware-supplied inputs of one engine invocation: the SR1 status
word read at entry, the CR2 value read during shutdown, and the bytes
the data register delivers on successive reads. -/
structure HwIn where
  sr1 : Nat
  cr2 : Nat
  dr : List Nat
  deriving DecidableEq

/- ## The engine (`stm32_i2c_isr`) -/

/-- Messages handling (1/2): if `dcnt == -1` and messages remain, load
the next message's buffer, length (also as the total-length snapshot)
and flags, decrement the message count and advance the cursor unless
this was the last message. -/
def msgAdvance (s : I2cState) : I2cState :=
  if s.dcnt = -1 ∧ 0 < s.msgc then
    let m := s.msgv.headD defaultMsg
    let msgc' := s.msgc - 1
    { s with buf := m.buffer
             pos := 0
             dcnt := (m.length : Int)
             total_msg_len := m.length % 256
             flags := m.flags
             msgc := msgc'
             msgv := if msgc' = 0 then s.msgv else s.msgv.tail }
  else s

/-- Start-bit branch: program ACK/NACK/POS by length special case and
send the address byte; an empty message instead re-arms the ISR. -/
def addrHandling (s : I2cState) : I2cState × List RegOp :=
  let m := s.msgv.headD defaultMsg
  if 0 < s.dcnt then
    let ackOps :=
      if s.total_msg_len = 1 ∧ s.flags &&& I2C_M_READ ≠ 0 then
        [RegOp.modify STM32_I2C_CR1_OFFSET I2C_CR1_POS 0,
         RegOp.modify STM32_I2C_CR1_OFFSET I2C_CR1_ACK 0]
      else if s.total_msg_len = 2 ∧ s.flags &&& I2C_M_READ ≠ 0 then
        [RegOp.modify STM32_I2C_CR1_OFFSET 0 I2C_CR1_POS,
         RegOp.modify STM32_I2C_CR1_OFFSET 0 I2C_CR1_ACK]
      else
        [RegOp.modify STM32_I2C_CR1_OFFSET I2C_CR1_POS 0,
         RegOp.modify STM32_I2C_CR1_OFFSET 0 I2C_CR1_ACK]
    let addrByte :=
      if s.flags &&& I2C_M_TEN ≠ 0 then 0
      else ((m.addr <<< 1) ||| (s.flags &&& I2C_M_READ)) % 65536
    ({ s with check_addr_ACK := true },
     ackOps ++ [RegOp.put STM32_I2C_DR_OFFSET addrByte])
  else
    ({ s with dcnt := -1 },
     [RegOp.modify STM32_I2C_CR2_OFFSET 0 I2C_CR2_ITBUFEN])

/-- Address-NACK branch (interrupt mode only): abort the transfer and
send STOP. -/
def addrNACK (s : I2cState) : I2cState × List RegOp :=
  ({ s with dcnt := -1, msgc := 0, check_addr_ACK := false }, [sendstopOp])

/-- Address-cleared branch in read direction: drop the pending flag,
consume SR2, and apply the length-1 (STOP now) / length-2 (NACK now)
special cases. -/
def addrAckedRead (s : I2cState) : I2cState × List RegOp :=
  let s' := { s with check_addr_ACK := false }
  if s'.dcnt = 1 ∧ s'.total_msg_len = 1 then
    ({ s' with dcnt := s'.dcnt - 1 },
     [RegOp.get STM32_I2C_SR2_OFFSET,
      RegOp.modify STM32_I2C_CR2_OFFSET 0 I2C_CR2_ITBUFEN,
      sendstopOp])
  else if s'.dcnt = 2 ∧ s'.total_msg_len = 2 then
    (s', [RegOp.get STM32_I2C_SR2_OFFSET,
          RegOp.modify STM32_I2C_CR1_OFFSET I2C_CR1_ACK 0])
  else
    (s', [RegOp.get STM32_I2C_SR2_OFFSET])

/-- Write-mode branch: consume SR2, clear the pending flag, then either
transmit the next byte or, at counter zero, chain to the next message
(STOP / repeated START / bare continuation) by its flags. -/
def writeMode (s : I2cState) : I2cState × List RegOp :=
  let m := s.msgv.headD defaultMsg
  let s' := { s with check_addr_ACK := false }
  if 1 ≤ s'.dcnt then
    ({ s' with pos := s'.pos + 1, dcnt := s'.dcnt - 1 },
     [RegOp.get STM32_I2C_SR2_OFFSET,
      RegOp.put STM32_I2C_DR_OFFSET (s'.buf.getD s'.pos 0)])
  else if s'.dcnt = 0 then
    if s'.msgc = 0 then
      ({ s' with dcnt := s'.dcnt - 1 },
       [RegOp.get STM32_I2C_SR2_OFFSET, sendstopOp])
    else if 0 < s'.msgc ∧ (m.flags = 0 ∨ m.flags &&& I2C_M_READ ≠ 0) then
      ({ s' with dcnt := s'.dcnt - 1 },
       [RegOp.get STM32_I2C_SR2_OFFSET, sendstartOp])
    else if 0 < s'.msgc ∧ m.flags &&& I2C_M_NORESTART ≠ 0 then
      ({ s' with dcnt := -1 }, [RegOp.get STM32_I2C_SR2_OFFSET])
    else
      (s', [RegOp.get STM32_I2C_SR2_OFFSET])
  else
    (s', [RegOp.get STM32_I2C_SR2_OFFSET])

/-- Read-mode branch: the errata-aware read-drain algorithm, keyed on
BTF, the remaining count and the total message length; always ends by
consuming SR2. -/
def readMode (sr1 d0 d1 : Nat) (s : I2cState) : I2cState × List RegOp :=
  let core : I2cState × List RegOp :=
    if s.dcnt = 0 ∧ s.total_msg_len = 1 then
      ({ s with buf := s.buf.set s.pos d0, pos := s.pos + 1, dcnt := s.dcnt - 1 },
       [RegOp.get STM32_I2C_DR_OFFSET])
    else if s.dcnt = 2 ∧ s.total_msg_len = 2 ∧ sr1 &&& I2C_SR1_BTF = 0 then
      (s, [])
    else if s.dcnt = 2 ∧ s.total_msg_len = 2 ∧ sr1 &&& I2C_SR1_BTF ≠ 0 then
      ({ s with buf := (s.buf.set s.pos d0).set (s.pos + 1) d1
                pos := s.pos + 2
                dcnt := s.dcnt - 3 },
       [sendstopOp, RegOp.get STM32_I2C_DR_OFFSET, RegOp.get STM32_I2C_DR_OFFSET])
    else if 3 ≤ s.total_msg_len ∧ sr1 &&& I2C_SR1_BTF = 0 then
      (s, [])
    else if 4 ≤ s.dcnt ∧ 3 ≤ s.total_msg_len ∧ sr1 &&& I2C_SR1_BTF ≠ 0 then
      ({ s with buf := s.buf.set s.pos d0, pos := s.pos + 1, dcnt := s.dcnt - 1 },
       [RegOp.get STM32_I2C_DR_OFFSET])
    else if s.dcnt = 3 ∧ sr1 &&& I2C_SR1_BTF ≠ 0 ∧ 3 ≤ s.total_msg_len then
      ({ s with buf := s.buf.set s.pos d0, pos := s.pos + 1, dcnt := s.dcnt - 1 },
       [RegOp.modify STM32_I2C_CR1_OFFSET I2C_CR1_ACK 0,
        RegOp.get STM32_I2C_DR_OFFSET])
    else if s.dcnt = 2 ∧ sr1 &&& I2C_SR1_BTF ≠ 0 ∧ 3 ≤ s.total_msg_len then
      ({ s with buf := (s.buf.set s.pos d0).set (s.pos + 1) d1
                pos := s.pos + 2
                dcnt := -1 },
       [sendstopOp, RegOp.get STM32_I2C_DR_OFFSET, RegOp.get STM32_I2C_DR_OFFSET])
    else
      ({ s with dcnt := -1, msgc := 0 }, [])
  (core.1, core.2 ++ [RegOp.get STM32_I2C_SR2_OFFSET])

/-- The if/else-if protocol dispatch chain of `stm32_i2c_isr`: exactly
one branch executes per invocation.  `polled` selects the
`CONFIG_I2C_POLLED` build (which drops the address-NACK branch and the
fatal no-state error). -/
def i2cDispatch (polled : Bool) (sr1 d0 d1 : Nat) (s : I2cState) : I2cState × List RegOp :=
  if sr1 &&& I2C_SR1_SB ≠ 0 then
    addrHandling s
  else if ¬polled ∧ sr1 &&& I2C_SR1_ADDR = 0 ∧ s.check_addr_ACK then
    addrNACK s
  else if s.flags &&& I2C_M_READ ≠ 0 ∧ sr1 &&& I2C_SR1_ADDR ≠ 0 ∧ s.check_addr_ACK then
    addrAckedRead s
  else if s.flags &&& I2C_M_READ = 0 ∧ sr1 &&& (I2C_SR1_ADDR ||| I2C_SR1_TXE) ≠ 0 then
    writeMode s
  else if s.flags &&& I2C_M_READ ≠ 0 ∧ sr1 &&& I2C_SR1_RXNE ≠ 0 then
    readMode sr1 d0 d1 s
  else if s.dcnt = -1 ∧ s.msgc = 0 then
    (s, [RegOp.get STM32_I2C_SR2_OFFSET])
  else if polled then
    (s, [])
  else
    ({ s with dcnt := -1, msgc := 0 }, [RegOp.get STM32_I2C_SR2_OFFSET])

/-- Messages handling (2/2): when the counter is at the sentinel and no
messages remain, clear the message pointer and signal completion —
polled builds set DONE directly, interrupt builds disable all I2C
interrupt sources and post the waiting thread. -/
def i2cTerminate (polled : Bool) (cr2in : Nat) (sp : I2cState × List RegOp) :
    I2cState × List RegOp :=
  let s := sp.1
  if s.dcnt = -1 ∧ s.msgc = 0 then
    let s1 := { s with msgv := ([] : List I2cMsg) }
    if polled then
      ({ s1 with intstate := IntState.done }, sp.2)
    else
      let cleared := (cr2in &&& (4294967295 - I2C_CR2_ALLINTS)) % 65536
      let ops2 := sp.2 ++ [RegOp.get STM32_I2C_CR2_OFFSET,
                           RegOp.put STM32_I2C_CR2_OFFSET cleared]
      if s1.intstate = IntState.waiting then
        ({ s1 with intstate := IntState.done }, ops2)
      else
        (s1, ops2)
  else
    sp

/-- `stm32_i2c_isr`: one engine invocation.  Reads SR1, records the
status, runs the message-advance step, the dispatch chain and the
termination check; returns the new session state and the register
operations performed. -/
def stm32_i2c_isr (polled : Bool) (hw : HwIn) (s0 : I2cState) : I2cState × List RegOp :=
  let s := msgAdvance { s0 with status := hw.sr1 }
  let sp := i2cDispatch polled hw.sr1 (hw.dr.getD 0 0) (hw.dr.getD 1 0) s
  let t := i2cTerminate polled hw.cr2 sp
  (t.1, RegOp.get STM32_I2C_SR1_OFFSET :: t.2)

/- ## Completion gate (`stm32_i2c_sem_waitdone`, polled build) -/

/-- The polled wait loop body: invoke the engine once per poll cycle
until the handshake state reaches DONE or the iteration budget (the
timeout) runs out.  `hws` supplies the hardware inputs of the successive
poll cycles; its length plays the role of the tick timeout. -/
def pollLoop : List HwIn → I2cState → I2cState
  | [], s => s
  | hw :: rest, s =>
    let s' := (stm32_i2c_isr true hw s).1
    if s'.intstate = IntState.done then s' else pollLoop rest s'

/-- `stm32_i2c_sem_waitdone` (CONFIG_I2C_POLLED build): mark the
handshake WAITING, poll the engine, then force the handshake back to
IDLE and report `0` (OK) or `-ETIMEDOUT`. -/
def stm32_i2c_sem_waitdone (hws : List HwIn) (s : I2cState) : I2cState × Int :=
  let s1 := pollLoop hws { s with intstate := IntState.waiting }
  let ret : Int := if s1.intstate = IntState.done then 0 else -(errETIMEDOUT : Int)
  ({ s1 with intstate := IntState.idle }, ret)

/-- The session-state arming performed by `stm32_i2c_process` before it
triggers START: install the new message list and count, set the byte
counter to the between-messages sentinel and clear the status
snapshot. -/
def processArm (msgs : List I2cMsg) (count : Nat) (s : I2cState) : I2cState :=
  { s with msgv := msgs, msgc := count, dcnt := -1, status := 0 }

/- ## Error classification tail of `stm32_i2c_process` -/

/-- The final-status classification of `stm32_i2c_process`.  `timedout`
records whether `stm32_i2c_sem_waitdone` failed: that path seeds
`errval` with ETIMEDOUT before classification, and `errval` is never
cleared afterwards — a classification branch that fires overwrites it,
otherwise the seeded value stands.  The SR1 error bits are tested in
precedence order, then the (shifted) SR2 busy bit.  Returns the positive
errno value (the call returns its negation). -/
def stm32_i2c_classify (timedout : Bool) (status : Nat) : Nat :=
  let errval := if timedout then errETIMEDOUT else 0
  if status &&& I2C_SR1_ERRORMASK ≠ 0 then
    if status &&& I2C_SR1_BERR ≠ 0 then errEIO
    else if status &&& I2C_SR1_ARLO ≠ 0 then errEAGAIN
    else if status &&& I2C_SR1_AF ≠ 0 then errENXIO
    else if status &&& I2C_SR1_OVR ≠ 0 then errEIO
    else if status &&& I2C_SR1_PECERR ≠ 0 then errEPROTO
    else if status &&& I2C_SR1_TIMEOUT ≠ 0 then errETIME
    else errEINTR
  else if status &&& (I2C_SR2_BUSY <<< 16) ≠ 0 then errEBUSY
  else errval

/- ## Clock configurator (`stm32_i2c_setclock`) -/

/-- The CCR value computed by `stm32_i2c_setclock`: standard mode at or
below 100 kHz (divider pclk/(2f), floored to 4), else fast mode (divider
pclk/(3f), or pclk/(25f) with a duty bit under the `duty` build option,
floored to 1, with the fast-mode bit).  The uint16 cast of the C local
`speed` is the `% 65536`. -/
def i2cCCR (pclk : Nat) (duty : Bool) (frequency : Nat) : Nat :=
  if frequency ≤ 100000 then
    let speed0 := (pclk / (frequency <<< 1)) % 65536
    if speed0 < 4 then 4 else speed0
  else
    let speed0 :=
      if duty then (pclk / (frequency * 25)) % 65536
      else (pclk / (frequency * 3)) % 65536
    let ccr0 := if duty then I2C_CCR_DUTY ||| I2C_CCR_FS else I2C_CCR_FS
    ccr0 ||| (if speed0 < 1 then 1 else speed0)

/-- The TRISE value computed by `stm32_i2c_setclock`: pclk-in-MHz + 1 in
standard mode, (pclk-in-MHz * 300)/1000 + 1 in fast mode. -/
def i2cTRISE (pclk : Nat) (frequency : Nat) : Nat :=
  let freqmhz := (pclk / 1000000) % 65536
  if frequency ≤ 100000 then (freqmhz + 1) % 65536
  else ((freqmhz * 300) / 1000 + 1) % 65536

/-- `stm32_i2c_setclock`: disable the peripheral, compute CCR and TRISE
from the peripheral clock `pclk` and the target `frequency` (standard
mode at or below 100 kHz, else fast mode, with the duty-16/9 build
option `duty`), program them, set OAR1 bit 14 and restore the CR1 value
`cr1` read on entry.  Returns the register operations performed. -/
def stm32_i2c_setclock (pclk : Nat) (duty : Bool) (cr1 : Nat) (frequency : Nat) :
    List RegOp :=
  [RegOp.get STM32_I2C_CR1_OFFSET,
   RegOp.put STM32_I2C_CR1_OFFSET (cr1 &&& (65535 - I2C_CR1_PE)),
   RegOp.put STM32_I2C_CCR_OFFSET (i2cCCR pclk duty frequency),
   RegOp.put STM32_I2C_TRISE_OFFSET (i2cTRISE pclk frequency),
   RegOp.put STM32_I2C_OAR1_OFFSET I2C_OAR1_ONE,
   RegOp.put STM32_I2C_CR1_OFFSET cr1]

/- ## Event tracer (`stm32_i2c_traceevent`) -/

def I2CEVENT_NONE : Nat := 0
def I2CEVENT_POLL_DEV_NOT_RDY : Nat := 1004

/-- One `struct stm32_trace_s` entry. -/
structure TraceEntry where
  status : Nat
  count : Nat
  event : Nat
  parm : Nat
  tstamp : Nat
  deriving DecidableEq

def emptyTraceEntry : TraceEntry := ⟨0, 0, 0, 0, 0⟩

/-- The trace ring buffer: current index plus the entry array. -/
structure TraceBuf where
  tndx : Nat
  trace : List TraceEntry
  deriving DecidableEq

/-- The unconditional body of `stm32_i2c_traceevent`: store the event
and parameter into the current entry, then advance the index and clear
the new entry unless the table is full (`ntrace` entries). -/
def traceeventBody (ntrace : Nat) (event parm : Nat) (t : TraceBuf) : TraceBuf :=
  let old := t.trace.getD t.tndx emptyTraceEntry
  let trace' := t.trace.set t.tndx { old with event := event, parm := parm }
  if ntrace - 1 ≤ t.tndx then
    { t with trace := trace' }
  else
    { tndx := t.tndx + 1, trace := trace'.set (t.tndx + 1) emptyTraceEntry }

/-- `stm32_i2c_traceevent`: the recording operation, with its guard
`event != I2CEVENT_NONE || event != I2CEVENT_POLL_DEV_NOT_RDY` as
written in the source. -/
def stm32_i2c_traceevent (ntrace : Nat) (event parm : Nat) (t : TraceBuf) : TraceBuf :=
  if event ≠ I2CEVENT_NONE ∨ event ≠ I2CEVENT_POLL_DEV_NOT_RDY then
    traceeventBody ntrace event parm t
  else
    t

/- ## Basic lemmas about the embedding -/

theorem msgAdvance_noop (s : I2cState) (h : ¬(s.dcnt = -1 ∧ 0 < s.msgc)) :
    msgAdvance s = s := by
  unfold msgAdvance; rw [if_neg h]

theorem i2cTerminate_noop (polled : Bool) (cr2 : Nat) (sp : I2cState × List RegOp)
    (h : ¬(sp.1.dcnt = -1 ∧ sp.1.msgc = 0)) :
    i2cTerminate polled cr2 sp = sp := by
  unfold i2cTerminate; rw [if_neg h]

/-- The termination check never touches the protocol-progress fields and
adds only CR2 bookkeeping to the effect trace. -/
theorem i2cTerminate_frame (polled : Bool) (cr2 : Nat) (sp : I2cState × List RegOp) :
    (i2cTerminate polled cr2 sp).1.dcnt = sp.1.dcnt ∧
    (i2cTerminate polled cr2 sp).1.msgc = sp.1.msgc ∧
    (i2cTerminate polled cr2 sp).1.buf = sp.1.buf ∧
    (i2cTerminate polled cr2 sp).1.pos = sp.1.pos ∧
    (i2cTerminate polled cr2 sp).1.flags = sp.1.flags ∧
    (i2cTerminate polled cr2 sp).1.total_msg_len = sp.1.total_msg_len ∧
    (i2cTerminate polled cr2 sp).1.check_addr_ACK = sp.1.check_addr_ACK ∧
    keyOps (i2cTerminate polled cr2 sp).2 = keyOps sp.2 ∧
    drReads (i2cTerminate polled cr2 sp).2 = drReads sp.2 := by
  unfold i2cTerminate
  cases polled <;> by_cases h : sp.1.dcnt = -1 ∧ sp.1.msgc = 0 <;>
    by_cases hi : sp.1.intstate = IntState.waiting <;>
      simp [h, hi, keyOps, drReads, List.filter_append, isKeyOp,
        STM32_I2C_CR2_OFFSET, STM32_I2C_DR_OFFSET, STM32_I2C_CR1_OFFSET]

theorem keyOps_cons_sr1 (l : List RegOp) :
    keyOps (RegOp.get STM32_I2C_SR1_OFFSET :: l) = keyOps l := by
  simp [keyOps, List.filter_cons, isKeyOp, STM32_I2C_SR1_OFFSET, STM32_I2C_DR_OFFSET]

theorem drReads_cons_sr1 (l : List RegOp) :
    drReads (RegOp.get STM32_I2C_SR1_OFFSET :: l) = drReads l := by
  simp [drReads, List.filter_cons, STM32_I2C_SR1_OFFSET, STM32_I2C_DR_OFFSET]

/- ## Dispatch-entry lemmas -/

theorem dispatch_read_entry (polled : Bool) (sr1 d0 d1 : Nat) (s : I2cState)
    (hsb : sr1 &&& I2C_SR1_SB = 0)
    (hchk : s.check_addr_ACK = false)
    (hrd : s.flags &&& I2C_M_READ ≠ 0)
    (hrx : sr1 &&& I2C_SR1_RXNE ≠ 0) :
    i2cDispatch polled sr1 d0 d1 s = readMode sr1 d0 d1 s := by
  unfold i2cDispatch
  rw [if_neg (by simp [hsb]), if_neg (by simp [hchk]), if_neg (by simp [hchk]),
      if_neg (by simp [hrd]), if_pos ⟨hrd, hrx⟩]

theorem dispatch_write_entry (polled : Bool) (sr1 d0 d1 : Nat) (s : I2cState)
    (hsb : sr1 &&& I2C_SR1_SB = 0)
    (hnb : sr1 &&& I2C_SR1_ADDR ≠ 0 ∨ s.check_addr_ACK = false)
    (hwr : s.flags &&& I2C_M_READ = 0)
    (htx : sr1 &&& (I2C_SR1_ADDR ||| I2C_SR1_TXE) ≠ 0) :
    i2cDispatch polled sr1 d0 d1 s = writeMode s := by
  unfold i2cDispatch
  rw [if_neg (by simp [hsb]),
      if_neg (by rcases hnb with h | h <;> simp [h]),
      if_neg (by simp [hwr]), if_pos ⟨hwr, htx⟩]

theorem dispatch_ackread_entry (polled : Bool) (sr1 d0 d1 : Nat) (s : I2cState)
    (hsb : sr1 &&& I2C_SR1_SB = 0)
    (haddr : sr1 &&& I2C_SR1_ADDR ≠ 0)
    (hchk : s.check_addr_ACK = true)
    (hrd : s.flags &&& I2C_M_READ ≠ 0) :
    i2cDispatch polled sr1 d0 d1 s = addrAckedRead s := by
  unfold i2cDispatch
  rw [if_neg (by simp [hsb]), if_neg (by simp [haddr]), if_pos ⟨hrd, haddr, hchk⟩]

/- ## Read-mode case lemmas -/

theorem readMode_ge3_wait (sr1 d0 d1 : Nat) (s : I2cState)
    (hlen : 3 ≤ s.total_msg_len) (hbtf : sr1 &&& I2C_SR1_BTF = 0) :
    readMode sr1 d0 d1 s = (s, [RegOp.get STM32_I2C_SR2_OFFSET]) := by
  unfold readMode
  rw [if_neg (by rintro ⟨_, h⟩; omega), if_neg (by rintro ⟨_, h, _⟩; omega),
      if_neg (by rintro ⟨_, h, _⟩; omega), if_pos ⟨hlen, hbtf⟩]
  rfl

theorem readMode_ge3_read (sr1 d0 d1 : Nat) (s : I2cState)
    (hlen : 3 ≤ s.total_msg_len) (hbtf : sr1 &&& I2C_SR1_BTF ≠ 0)
    (hd : 4 ≤ s.dcnt) :
    readMode sr1 d0 d1 s =
      ({ s with buf := s.buf.set s.pos d0, pos := s.pos + 1, dcnt := s.dcnt - 1 },
       [RegOp.get STM32_I2C_DR_OFFSET, RegOp.get STM32_I2C_SR2_OFFSET]) := by
  unfold readMode
  rw [if_neg (by rintro ⟨_, h⟩; omega), if_neg (by rintro ⟨_, h, _⟩; omega),
      if_neg (by rintro ⟨_, h, _⟩; omega), if_neg (by rintro ⟨_, h⟩; exact hbtf h),
      if_pos ⟨hd, hlen, hbtf⟩]
  rfl

theorem readMode_ge3_nack (sr1 d0 d1 : Nat) (s : I2cState)
    (hlen : 3 ≤ s.total_msg_len) (hbtf : sr1 &&& I2C_SR1_BTF ≠ 0)
    (hd : s.dcnt = 3) :
    readMode sr1 d0 d1 s =
      ({ s with buf := s.buf.set s.pos d0, pos := s.pos + 1, dcnt := s.dcnt - 1 },
       [RegOp.modify STM32_I2C_CR1_OFFSET I2C_CR1_ACK 0,
        RegOp.get STM32_I2C_DR_OFFSET, RegOp.get STM32_I2C_SR2_OFFSET]) := by
  unfold readMode
  rw [if_neg (by rintro ⟨_, h⟩; omega), if_neg (by rintro ⟨_, h, _⟩; omega),
      if_neg (by rintro ⟨_, h, _⟩; omega), if_neg (by rintro ⟨_, h⟩; exact hbtf h),
      if_neg (by rintro ⟨h, _, _⟩; omega), if_pos ⟨hd, hbtf, hlen⟩]
  rfl

theorem readMode_ge3_tail (sr1 d0 d1 : Nat) (s : I2cState)
    (hlen : 3 ≤ s.total_msg_len) (hbtf : sr1 &&& I2C_SR1_BTF ≠ 0)
    (hd : s.dcnt = 2) :
    readMode sr1 d0 d1 s =
      ({ s with buf := (s.buf.set s.pos d0).set (s.pos + 1) d1
                pos := s.pos + 2
                dcnt := -1 },
       [sendstopOp, RegOp.get STM32_I2C_DR_OFFSET, RegOp.get STM32_I2C_DR_OFFSET,
        RegOp.get STM32_I2C_SR2_OFFSET]) := by
  unfold readMode
  rw [if_neg (by rintro ⟨_, h⟩; omega), if_neg (by rintro ⟨_, h, _⟩; omega),
      if_neg (by rintro ⟨_, h, _⟩; omega), if_neg (by rintro ⟨_, h⟩; exact hbtf h),
      if_neg (by rintro ⟨h, _, _⟩; omega), if_neg (by rintro ⟨h, _, _⟩; omega),
      if_pos ⟨hd, hbtf, hlen⟩]
  rfl

theorem readMode_2_wait (sr1 d0 d1 : Nat) (s : I2cState)
    (hlen : s.total_msg_len = 2) (hbtf : sr1 &&& I2C_SR1_BTF = 0)
    (hd : s.dcnt = 2) :
    readMode sr1 d0 d1 s = (s, [RegOp.get STM32_I2C_SR2_OFFSET]) := by
  unfold readMode
  rw [if_neg (by rintro ⟨_, h⟩; omega), if_pos ⟨hd, hlen, hbtf⟩]
  rfl

theorem readMode_2_read (sr1 d0 d1 : Nat) (s : I2cState)
    (hlen : s.total_msg_len = 2) (hbtf : sr1 &&& I2C_SR1_BTF ≠ 0)
    (hd : s.dcnt = 2) :
    readMode sr1 d0 d1 s =
      ({ s with buf := (s.buf.set s.pos d0).set (s.pos + 1) d1
                pos := s.pos + 2
                dcnt := s.dcnt - 3 },
       [sendstopOp, RegOp.get STM32_I2C_DR_OFFSET, RegOp.get STM32_I2C_DR_OFFSET,
        RegOp.get STM32_I2C_SR2_OFFSET]) := by
  unfold readMode
  rw [if_neg (by rintro ⟨_, h⟩; omega), if_neg (by rintro ⟨_, _, h⟩; exact hbtf h),
      if_pos ⟨hd, hlen, hbtf⟩]
  rfl

/-- Under read-branch entry conditions the whole invocation is the read
drain followed by the termination check. -/
theorem isr_read_entry (polled : Bool) (hw : HwIn) (s : I2cState)
    (hadv : ¬(s.dcnt = -1 ∧ 0 < s.msgc))
    (hsb : hw.sr1 &&& I2C_SR1_SB = 0)
    (hchk : s.check_addr_ACK = false)
    (hrd : s.flags &&& I2C_M_READ ≠ 0)
    (hrx : hw.sr1 &&& I2C_SR1_RXNE ≠ 0) :
    stm32_i2c_isr polled hw s =
      ((i2cTerminate polled hw.cr2 (readMode hw.sr1 (hw.dr.getD 0 0) (hw.dr.getD 1 0)
          { s with status := hw.sr1 })).1,
       RegOp.get STM32_I2C_SR1_OFFSET ::
         (i2cTerminate polled hw.cr2 (readMode hw.sr1 (hw.dr.getD 0 0) (hw.dr.getD 1 0)
          { s with status := hw.sr1 })).2) := by
  simp only [stm32_i2c_isr]
  rw [msgAdvance_noop { s with status := hw.sr1 } hadv,
      dispatch_read_entry polled hw.sr1 (hw.dr.getD 0 0) (hw.dr.getD 1 0)
        { s with status := hw.sr1 } hsb hchk hrd hrx]

/-- Claim C1: for an engine invocation handling a read message of total
length at least 3 with RXNE set: with BTF clear no data-register read
occurs; with BTF set and at least 4 bytes remaining exactly one
data-register read occurs and the counter drops by one; with BTF set at
exactly 3 remaining the ACK bit is cleared before a single data-register
read and the counter drops to 2; with BTF set at exactly 2 remaining a
STOP is issued followed by exactly two consecutive data-register reads
and the counter is set directly to the sentinel -1. -/
theorem claim_C1_long_read (polled : Bool) (hw : HwIn) (s : I2cState)
    (hadv : ¬(s.dcnt = -1 ∧ 0 < s.msgc))
    (hsb : hw.sr1 &&& I2C_SR1_SB = 0)
    (hchk : s.check_addr_ACK = false)
    (hrd : s.flags &&& I2C_M_READ ≠ 0)
    (hrx : hw.sr1 &&& I2C_SR1_RXNE ≠ 0)
    (hlen : 3 ≤ s.total_msg_len) :
    (hw.sr1 &&& I2C_SR1_BTF = 0 → drReads (stm32_i2c_isr polled hw s).2 = 0) ∧
    (hw.sr1 &&& I2C_SR1_BTF ≠ 0 ∧ 4 ≤ s.dcnt →
      keyOps (stm32_i2c_isr polled hw s).2 = [RegOp.get STM32_I2C_DR_OFFSET] ∧
      (stm32_i2c_isr polled hw s).1.dcnt = s.dcnt - 1) ∧
    (hw.sr1 &&& I2C_SR1_BTF ≠ 0 ∧ s.dcnt = 3 →
      keyOps (stm32_i2c_isr polled hw s).2 =
        [RegOp.modify STM32_I2C_CR1_OFFSET I2C_CR1_ACK 0,
         RegOp.get STM32_I2C_DR_OFFSET] ∧
      (stm32_i2c_isr polled hw s).1.dcnt = 2) ∧
    (hw.sr1 &&& I2C_SR1_BTF ≠ 0 ∧ s.dcnt = 2 →
      keyOps (stm32_i2c_isr polled hw s).2 =
        [sendstopOp, RegOp.get STM32_I2C_DR_OFFSET, RegOp.get STM32_I2C_DR_OFFSET] ∧
      (stm32_i2c_isr polled hw s).1.dcnt = -1) := by
  refine ⟨?_, ?_, ?_, ?_⟩
  · intro hbtf
    rw [isr_read_entry polled hw s hadv hsb hchk hrd hrx,
        readMode_ge3_wait hw.sr1 (hw.dr.getD 0 0) (hw.dr.getD 1 0)
          { s with status := hw.sr1 } hlen hbtf]
    rw [drReads_cons_sr1, (i2cTerminate_frame _ _ _).2.2.2.2.2.2.2.2]
    rfl
  · rintro ⟨hbtf, hd⟩
    rw [isr_read_entry polled hw s hadv hsb hchk hrd hrx,
        readMode_ge3_read hw.sr1 (hw.dr.getD 0 0) (hw.dr.getD 1 0)
          { s with status := hw.sr1 } hlen hbtf hd,
        i2cTerminate_noop _ _ _
          (by show ¬(s.dcnt - 1 = -1 ∧ s.msgc = 0); rintro ⟨h1, h2⟩; omega)]
    refine ⟨?_, rfl⟩
    show keyOps (RegOp.get STM32_I2C_SR1_OFFSET ::
      [RegOp.get STM32_I2C_DR_OFFSET, RegOp.get STM32_I2C_SR2_OFFSET]) =
      [RegOp.get STM32_I2C_DR_OFFSET]
    decide
  · rintro ⟨hbtf, hd⟩
    rw [isr_read_entry polled hw s hadv hsb hchk hrd hrx,
        readMode_ge3_nack hw.sr1 (hw.dr.getD 0 0) (hw.dr.getD 1 0)
          { s with status := hw.sr1 } hlen hbtf hd,
        i2cTerminate_noop _ _ _
          (by show ¬(s.dcnt - 1 = -1 ∧ s.msgc = 0); rintro ⟨h1, h2⟩; omega)]
    refine ⟨?_, ?_⟩
    · show keyOps (RegOp.get STM32_I2C_SR1_OFFSET ::
        [RegOp.modify STM32_I2C_CR1_OFFSET I2C_CR1_ACK 0,
         RegOp.get STM32_I2C_DR_OFFSET, RegOp.get STM32_I2C_SR2_OFFSET]) =
        [RegOp.modify STM32_I2C_CR1_OFFSET I2C_CR1_ACK 0, RegOp.get STM32_I2C_DR_OFFSET]
      decide
    · show s.dcnt - 1 = 2
      omega
  · rintro ⟨hbtf, hd⟩
    rw [isr_read_entry polled hw s hadv hsb hchk hrd hrx,
        readMode_ge3_tail hw.sr1 (hw.dr.getD 0 0) (hw.dr.getD 1 0)
          { s with status := hw.sr1 } hlen hbtf hd]
    refine ⟨?_, ?_⟩
    · rw [keyOps_cons_sr1, (i2cTerminate_frame _ _ _).2.2.2.2.2.2.2.1]
      show keyOps [sendstopOp, RegOp.get STM32_I2C_DR_OFFSET,
        RegOp.get STM32_I2C_DR_OFFSET, RegOp.get STM32_I2C_SR2_OFFSET] =
        [sendstopOp, RegOp.get STM32_I2C_DR_OFFSET, RegOp.get STM32_I2C_DR_OFFSET]
      decide
    · rw [(i2cTerminate_frame _ _ _).1]

theorem claim_C1_long_read_witness :
    (keyOps (stm32_i2c_isr true ⟨0x44, 0, [9, 9]⟩
        ⟨[], 0, [0, 0, 0, 0, 0], 0, 5, 1, false, 5, IntState.waiting, 0⟩).2 =
      [RegOp.get STM32_I2C_DR_OFFSET] ∧
     (stm32_i2c_isr true ⟨0x44, 0, [9, 9]⟩
        ⟨[], 0, [0, 0, 0, 0, 0], 0, 5, 1, false, 5, IntState.waiting, 0⟩).1.dcnt = 5 - 1) ∧
    keyOps (stm32_i2c_isr true ⟨0x40, 0, [9, 9]⟩
        ⟨[], 0, [0, 0, 0, 0, 0], 0, 5, 1, false, 5, IntState.waiting, 0⟩).2 = [] :=
  ⟨(claim_C1_long_read true ⟨0x44, 0, [9, 9]⟩
      ⟨[], 0, [0, 0, 0, 0, 0], 0, 5, 1, false, 5, IntState.waiting, 0⟩
      (by decide) (by decide) (by decide) (by decide) (by decide) (by decide)).2.1
      ⟨by decide, by decide⟩,
   by decide⟩

/-- Claim C2: for a read message of total length exactly 2, an
invocation with RXNE set but BTF clear performs no data-register read,
and the invocation with BTF set issues exactly one STOP followed by
exactly two data-register reads, stores both bytes into the caller's
buffer, and leaves the byte counter at the sentinel -1. -/
theorem claim_C2_two_byte_read (polled : Bool) (hw : HwIn) (s : I2cState)
    (hsb : hw.sr1 &&& I2C_SR1_SB = 0)
    (hchk : s.check_addr_ACK = false)
    (hrd : s.flags &&& I2C_M_READ ≠ 0)
    (hrx : hw.sr1 &&& I2C_SR1_RXNE ≠ 0)
    (hlen : s.total_msg_len = 2)
    (hd : s.dcnt = 2) :
    (hw.sr1 &&& I2C_SR1_BTF = 0 → drReads (stm32_i2c_isr polled hw s).2 = 0) ∧
    (hw.sr1 &&& I2C_SR1_BTF ≠ 0 →
      keyOps (stm32_i2c_isr polled hw s).2 =
        [sendstopOp, RegOp.get STM32_I2C_DR_OFFSET, RegOp.get STM32_I2C_DR_OFFSET] ∧
      (stm32_i2c_isr polled hw s).1.buf =
        (s.buf.set s.pos (hw.dr.getD 0 0)).set (s.pos + 1) (hw.dr.getD 1 0) ∧
      (stm32_i2c_isr polled hw s).1.pos = s.pos + 2 ∧
      (stm32_i2c_isr polled hw s).1.dcnt = -1) := by
  have hadv : ¬(s.dcnt = -1 ∧ 0 < s.msgc) := by rintro ⟨h1, _⟩; omega
  refine ⟨?_, ?_⟩
  · intro hbtf
    rw [isr_read_entry polled hw s hadv hsb hchk hrd hrx,
        readMode_2_wait hw.sr1 (hw.dr.getD 0 0) (hw.dr.getD 1 0)
          { s with status := hw.sr1 } hlen hbtf hd]
    rw [drReads_cons_sr1, (i2cTerminate_frame _ _ _).2.2.2.2.2.2.2.2]
    rfl
  · intro hbtf
    rw [isr_read_entry polled hw s hadv hsb hchk hrd hrx,
        readMode_2_read hw.sr1 (hw.dr.getD 0 0) (hw.dr.getD 1 0)
          { s with status := hw.sr1 } hlen hbtf hd]
    refine ⟨?_, ?_, ?_, ?_⟩
    · rw [keyOps_cons_sr1, (i2cTerminate_frame _ _ _).2.2.2.2.2.2.2.1]
      show keyOps [sendstopOp, RegOp.get STM32_I2C_DR_OFFSET,
        RegOp.get STM32_I2C_DR_OFFSET, RegOp.get STM32_I2C_SR2_OFFSET] =
        [sendstopOp, RegOp.get STM32_I2C_DR_OFFSET, RegOp.get STM32_I2C_DR_OFFSET]
      decide
    · rw [(i2cTerminate_frame _ _ _).2.2.1]
    · rw [(i2cTerminate_frame _ _ _).2.2.2.1]
    · rw [(i2cTerminate_frame _ _ _).1]
      show s.dcnt - 3 = -1
      omega

theorem claim_C2_two_byte_read_witness :
    (keyOps (stm32_i2c_isr true ⟨0x44, 0, [0xAA, 0xBB]⟩
        ⟨[], 0, [7, 7], 0, 2, 1, false, 2, IntState.waiting, 0⟩).2 =
      [sendstopOp, RegOp.get STM32_I2C_DR_OFFSET, RegOp.get STM32_I2C_DR_OFFSET] ∧
     (stm32_i2c_isr true ⟨0x44, 0, [0xAA, 0xBB]⟩
        ⟨[], 0, [7, 7], 0, 2, 1, false, 2, IntState.waiting, 0⟩).1.buf =
       (([7, 7].set 0 0xAA).set 1 0xBB) ∧
     (stm32_i2c_isr true ⟨0x44, 0, [0xAA, 0xBB]⟩
        ⟨[], 0, [7, 7], 0, 2, 1, false, 2, IntState.waiting, 0⟩).1.pos = 0 + 2 ∧
     (stm32_i2c_isr true ⟨0x44, 0, [0xAA, 0xBB]⟩
        ⟨[], 0, [7, 7], 0, 2, 1, false, 2, IntState.waiting, 0⟩).1.dcnt = -1) ∧
    drReads (stm32_i2c_isr true ⟨0x40, 0, [0xAA, 0xBB]⟩
        ⟨[], 0, [7, 7], 0, 2, 1, false, 2, IntState.waiting, 0⟩).2 = 0 :=
  ⟨(claim_C2_two_byte_read true ⟨0x44, 0, [0xAA, 0xBB]⟩
      ⟨[], 0, [7, 7], 0, 2, 1, false, 2, IntState.waiting, 0⟩
      (by decide) (by decide) (by decide) (by decide) (by decide) (by decide)).2
      (by decide),
   (claim_C2_two_byte_read true ⟨0x40, 0, [0xAA, 0xBB]⟩
      ⟨[], 0, [7, 7], 0, 2, 1, false, 2, IntState.waiting, 0⟩
      (by decide) (by decide) (by decide) (by decide) (by decide) (by decide)).1
      (by decide)⟩

theorem keyOps_append (l1 l2 : List RegOp) :
    keyOps (l1 ++ l2) = keyOps l1 ++ keyOps l2 := by
  simp [keyOps, List.filter_append]

theorem addrAckedRead_len1 (s : I2cState) (hd : s.dcnt = 1) (hlen : s.total_msg_len = 1) :
    addrAckedRead s =
      ({ s with check_addr_ACK := false, dcnt := s.dcnt - 1 },
       [RegOp.get STM32_I2C_SR2_OFFSET,
        RegOp.modify STM32_I2C_CR2_OFFSET 0 I2C_CR2_ITBUFEN, sendstopOp]) := by
  simp only [addrAckedRead]
  rw [if_pos ⟨hd, hlen⟩]

theorem readMode_1_read (sr1 d0 d1 : Nat) (s : I2cState)
    (hd : s.dcnt = 0) (hlen : s.total_msg_len = 1) :
    readMode sr1 d0 d1 s =
      ({ s with buf := s.buf.set s.pos d0, pos := s.pos + 1, dcnt := s.dcnt - 1 },
       [RegOp.get STM32_I2C_DR_OFFSET, RegOp.get STM32_I2C_SR2_OFFSET]) := by
  unfold readMode
  rw [if_pos ⟨hd, hlen⟩]
  rfl

/-- Claim C3: for a length-1 read, the invocation that observes the
address-cleared event with the pending flag set clears the flag,
consumes SR2, issues STOP and decrements the counter from 1 to 0; a
later invocation with RXNE set performs exactly one data-register read,
dropping the counter to -1; over the two invocations exactly one
data-register read occurs and the STOP precedes it. -/
theorem claim_C3_one_byte_read (polled : Bool) (hw1 hw2 : HwIn) (s : I2cState)
    (hd : s.dcnt = 1) (hlen : s.total_msg_len = 1)
    (hchk : s.check_addr_ACK = true)
    (hrd : s.flags &&& I2C_M_READ ≠ 0)
    (hsb1 : hw1.sr1 &&& I2C_SR1_SB = 0)
    (haddr : hw1.sr1 &&& I2C_SR1_ADDR ≠ 0)
    (hsb2 : hw2.sr1 &&& I2C_SR1_SB = 0)
    (hrx2 : hw2.sr1 &&& I2C_SR1_RXNE ≠ 0) :
    (stm32_i2c_isr polled hw1 s).1.check_addr_ACK = false ∧
    (stm32_i2c_isr polled hw1 s).1.dcnt = 0 ∧
    keyOps (stm32_i2c_isr polled hw1 s).2 = [sendstopOp] ∧
    RegOp.get STM32_I2C_SR2_OFFSET ∈ (stm32_i2c_isr polled hw1 s).2 ∧
    (stm32_i2c_isr polled hw2 (stm32_i2c_isr polled hw1 s).1).1.dcnt = -1 ∧
    keyOps ((stm32_i2c_isr polled hw1 s).2 ++
            (stm32_i2c_isr polled hw2 (stm32_i2c_isr polled hw1 s).1).2) =
      [sendstopOp, RegOp.get STM32_I2C_DR_OFFSET] := by
  have h1 : stm32_i2c_isr polled hw1 s =
      ({ s with status := hw1.sr1, check_addr_ACK := false, dcnt := s.dcnt - 1 },
       [RegOp.get STM32_I2C_SR1_OFFSET, RegOp.get STM32_I2C_SR2_OFFSET,
        RegOp.modify STM32_I2C_CR2_OFFSET 0 I2C_CR2_ITBUFEN, sendstopOp]) := by
    simp only [stm32_i2c_isr]
    rw [msgAdvance_noop { s with status := hw1.sr1 }
          (by show ¬(s.dcnt = -1 ∧ 0 < s.msgc); rintro ⟨h, _⟩; omega),
        dispatch_ackread_entry polled hw1.sr1 (hw1.dr.getD 0 0) (hw1.dr.getD 1 0)
          { s with status := hw1.sr1 } hsb1 haddr hchk hrd,
        addrAckedRead_len1 { s with status := hw1.sr1 } hd hlen,
        i2cTerminate_noop _ _ _
          (by show ¬(s.dcnt - 1 = -1 ∧ s.msgc = 0); rintro ⟨h, _⟩; omega)]
  have h2 : stm32_i2c_isr polled hw2
      ({ s with status := hw1.sr1, check_addr_ACK := false, dcnt := s.dcnt - 1 } : I2cState) =
      ((i2cTerminate polled hw2.cr2
          ({ s with status := hw2.sr1
                    check_addr_ACK := false
                    buf := s.buf.set s.pos (hw2.dr.getD 0 0)
                    pos := s.pos + 1
                    dcnt := s.dcnt - 1 - 1 },
           [RegOp.get STM32_I2C_DR_OFFSET, RegOp.get STM32_I2C_SR2_OFFSET])).1,
       RegOp.get STM32_I2C_SR1_OFFSET ::
         (i2cTerminate polled hw2.cr2
          ({ s with status := hw2.sr1
                    check_addr_ACK := false
                    buf := s.buf.set s.pos (hw2.dr.getD 0 0)
                    pos := s.pos + 1
                    dcnt := s.dcnt - 1 - 1 },
           [RegOp.get STM32_I2C_DR_OFFSET, RegOp.get STM32_I2C_SR2_OFFSET])).2) := by
    rw [isr_read_entry polled hw2
          { s with status := hw1.sr1, check_addr_ACK := false, dcnt := s.dcnt - 1 }
          (by show ¬(s.dcnt - 1 = -1 ∧ 0 < s.msgc); rintro ⟨h, _⟩; omega)
          hsb2 rfl hrd hrx2,
        readMode_1_read hw2.sr1 (hw2.dr.getD 0 0) (hw2.dr.getD 1 0)
          { s with status := hw2.sr1, check_addr_ACK := false, dcnt := s.dcnt - 1 }
          (by show s.dcnt - 1 = 0; omega) hlen]
  have hk2 : keyOps (stm32_i2c_isr polled hw2
      ({ s with status := hw1.sr1, check_addr_ACK := false, dcnt := s.dcnt - 1 } : I2cState)).2 =
      [RegOp.get STM32_I2C_DR_OFFSET] := by
    rw [h2, keyOps_cons_sr1, (i2cTerminate_frame _ _ _).2.2.2.2.2.2.2.1]
    show keyOps [RegOp.get STM32_I2C_DR_OFFSET, RegOp.get STM32_I2C_SR2_OFFSET] =
      [RegOp.get STM32_I2C_DR_OFFSET]
    decide
  have hdc2 : (stm32_i2c_isr polled hw2
      ({ s with status := hw1.sr1, check_addr_ACK := false, dcnt := s.dcnt - 1 } : I2cState)).1.dcnt =
      -1 := by
    rw [h2, (i2cTerminate_frame _ _ _).1]
    show s.dcnt - 1 - 1 = -1
    omega
  rw [h1]
  refine ⟨rfl, ?_, ?_, ?_, hdc2, ?_⟩
  · show s.dcnt - 1 = 0
    omega
  · show keyOps [RegOp.get STM32_I2C_SR1_OFFSET, RegOp.get STM32_I2C_SR2_OFFSET,
      RegOp.modify STM32_I2C_CR2_OFFSET 0 I2C_CR2_ITBUFEN, sendstopOp] = [sendstopOp]
    decide
  · show RegOp.get STM32_I2C_SR2_OFFSET ∈
      [RegOp.get STM32_I2C_SR1_OFFSET, RegOp.get STM32_I2C_SR2_OFFSET,
       RegOp.modify STM32_I2C_CR2_OFFSET 0 I2C_CR2_ITBUFEN, sendstopOp]
    decide
  · rw [keyOps_append, hk2]
    show keyOps [RegOp.get STM32_I2C_SR1_OFFSET, RegOp.get STM32_I2C_SR2_OFFSET,
        RegOp.modify STM32_I2C_CR2_OFFSET 0 I2C_CR2_ITBUFEN, sendstopOp] ++
      [RegOp.get STM32_I2C_DR_OFFSET] = [sendstopOp, RegOp.get STM32_I2C_DR_OFFSET]
    decide

theorem claim_C3_one_byte_read_witness :
    keyOps ((stm32_i2c_isr true ⟨0x02, 0, []⟩
        ⟨[⟨0x48, 1, [0], 1⟩], 0, [0], 0, 1, 1, true, 1, IntState.waiting, 0⟩).2 ++
      (stm32_i2c_isr true ⟨0x40, 0, [0x5A]⟩
        (stm32_i2c_isr true ⟨0x02, 0, []⟩
          ⟨[⟨0x48, 1, [0], 1⟩], 0, [0], 0, 1, 1, true, 1, IntState.waiting, 0⟩).1).2) =
      [sendstopOp, RegOp.get STM32_I2C_DR_OFFSET] :=
  (claim_C3_one_byte_read true ⟨0x02, 0, []⟩ ⟨0x40, 0, [0x5A]⟩
    ⟨[⟨0x48, 1, [0], 1⟩], 0, [0], 0, 1, 1, true, 1, IntState.waiting, 0⟩
    (by decide) (by decide) (by decide) (by decide) (by decide) (by decide)
    (by decide) (by decide)).2.2.2.2.2

theorem writeMode_done_stop (s : I2cState) (hd : s.dcnt = 0) (hm : s.msgc = 0) :
    writeMode s =
      ({ s with check_addr_ACK := false, dcnt := s.dcnt - 1 },
       [RegOp.get STM32_I2C_SR2_OFFSET, sendstopOp]) := by
  simp only [writeMode]
  rw [if_neg (by show ¬(1 ≤ s.dcnt); omega), if_pos hd, if_pos hm]

theorem writeMode_done_restart (s : I2cState) (hd : s.dcnt = 0) (hm : 0 < s.msgc)
    (hf : (s.msgv.headD defaultMsg).flags = 0 ∨
          (s.msgv.headD defaultMsg).flags &&& I2C_M_READ ≠ 0) :
    writeMode s =
      ({ s with check_addr_ACK := false, dcnt := s.dcnt - 1 },
       [RegOp.get STM32_I2C_SR2_OFFSET, sendstartOp]) := by
  simp only [writeMode]
  rw [if_neg (by show ¬(1 ≤ s.dcnt); omega), if_pos hd,
      if_neg (by show ¬(s.msgc = 0); omega), if_pos ⟨hm, hf⟩]

theorem writeMode_done_norestart (s : I2cState) (hd : s.dcnt = 0) (hm : 0 < s.msgc)
    (hf0 : (s.msgv.headD defaultMsg).flags ≠ 0)
    (hfr : (s.msgv.headD defaultMsg).flags &&& I2C_M_READ = 0)
    (hfn : (s.msgv.headD defaultMsg).flags &&& I2C_M_NORESTART ≠ 0) :
    writeMode s =
      ({ s with check_addr_ACK := false, dcnt := -1 },
       [RegOp.get STM32_I2C_SR2_OFFSET]) := by
  simp only [writeMode]
  rw [if_neg (by show ¬(1 ≤ s.dcnt); omega), if_pos hd,
      if_neg (by show ¬(s.msgc = 0); omega),
      if_neg (by rintro ⟨_, h | h⟩; exacts [hf0 h, h hfr]),
      if_pos ⟨hm, hfn⟩]

/-- Under write-branch entry conditions the whole invocation is the
write handler followed by the termination check. -/
theorem isr_write_entry (polled : Bool) (hw : HwIn) (s : I2cState)
    (hadv : ¬(s.dcnt = -1 ∧ 0 < s.msgc))
    (hsb : hw.sr1 &&& I2C_SR1_SB = 0)
    (hnb : hw.sr1 &&& I2C_SR1_ADDR ≠ 0 ∨ s.check_addr_ACK = false)
    (hwr : s.flags &&& I2C_M_READ = 0)
    (htx : hw.sr1 &&& (I2C_SR1_ADDR ||| I2C_SR1_TXE) ≠ 0) :
    stm32_i2c_isr polled hw s =
      ((i2cTerminate polled hw.cr2 (writeMode { s with status := hw.sr1 })).1,
       RegOp.get STM32_I2C_SR1_OFFSET ::
         (i2cTerminate polled hw.cr2 (writeMode { s with status := hw.sr1 })).2) := by
  simp only [stm32_i2c_isr]
  rw [msgAdvance_noop { s with status := hw.sr1 } hadv,
      dispatch_write_entry polled hw.sr1 (hw.dr.getD 0 0) (hw.dr.getD 1 0)
        { s with status := hw.sr1 } hsb hnb hwr htx]

/-- Claim C4: in the write branch with the byte counter at 0: with no
messages left exactly one STOP is issued and the counter becomes -1;
with a next message whose flags are zero or include the read flag a
repeated START is issued with no STOP and the counter becomes -1; with a
next message carrying the no-restart flag the counter is set to -1 with
neither START nor STOP.  In particular a write followed by a read gets a
repeated START and no STOP between the messages. -/
theorem claim_C4_write_chain (polled : Bool) (hw : HwIn) (s : I2cState)
    (hsb : hw.sr1 &&& I2C_SR1_SB = 0)
    (hchk : s.check_addr_ACK = false)
    (hwr : s.flags &&& I2C_M_READ = 0)
    (htx : hw.sr1 &&& (I2C_SR1_ADDR ||| I2C_SR1_TXE) ≠ 0)
    (hd : s.dcnt = 0) :
    (s.msgc = 0 →
      keyOps (stm32_i2c_isr polled hw s).2 = [sendstopOp] ∧
      (stm32_i2c_isr polled hw s).1.dcnt = -1) ∧
    (0 < s.msgc ∧ ((s.msgv.headD defaultMsg).flags = 0 ∨
        (s.msgv.headD defaultMsg).flags &&& I2C_M_READ ≠ 0) →
      keyOps (stm32_i2c_isr polled hw s).2 = [sendstartOp] ∧
      (stm32_i2c_isr polled hw s).1.dcnt = -1) ∧
    (0 < s.msgc ∧ (s.msgv.headD defaultMsg).flags ≠ 0 ∧
        (s.msgv.headD defaultMsg).flags &&& I2C_M_READ = 0 ∧
        (s.msgv.headD defaultMsg).flags &&& I2C_M_NORESTART ≠ 0 →
      keyOps (stm32_i2c_isr polled hw s).2 = [] ∧
      (stm32_i2c_isr polled hw s).1.dcnt = -1) := by
  have hadv : ¬(s.dcnt = -1 ∧ 0 < s.msgc) := by rintro ⟨h, _⟩; omega
  refine ⟨?_, ?_, ?_⟩
  · intro hm
    rw [isr_write_entry polled hw s hadv hsb (Or.inr hchk) hwr htx,
        writeMode_done_stop { s with status := hw.sr1 } hd hm]
    refine ⟨?_, ?_⟩
    · rw [keyOps_cons_sr1, (i2cTerminate_frame _ _ _).2.2.2.2.2.2.2.1]
      show keyOps [RegOp.get STM32_I2C_SR2_OFFSET, sendstopOp] = [sendstopOp]
      decide
    · rw [(i2cTerminate_frame _ _ _).1]
      show s.dcnt - 1 = -1
      omega
  · rintro ⟨hm, hf⟩
    rw [isr_write_entry polled hw s hadv hsb (Or.inr hchk) hwr htx,
        writeMode_done_restart { s with status := hw.sr1 } hd hm hf,
        i2cTerminate_noop _ _ _
          (by show ¬(s.dcnt - 1 = -1 ∧ s.msgc = 0); rintro ⟨_, h⟩; omega)]
    refine ⟨?_, ?_⟩
    · show keyOps (RegOp.get STM32_I2C_SR1_OFFSET ::
        [RegOp.get STM32_I2C_SR2_OFFSET, sendstartOp]) = [sendstartOp]
      decide
    · show s.dcnt - 1 = -1
      omega
  · rintro ⟨hm, hf0, hfr, hfn⟩
    rw [isr_write_entry polled hw s hadv hsb (Or.inr hchk) hwr htx,
        writeMode_done_norestart { s with status := hw.sr1 } hd hm hf0 hfr hfn,
        i2cTerminate_noop _ _ _
          (by show ¬((-1 : Int) = -1 ∧ s.msgc = 0); rintro ⟨_, h⟩; omega)]
    refine ⟨?_, rfl⟩
    show keyOps (RegOp.get STM32_I2C_SR1_OFFSET :: [RegOp.get STM32_I2C_SR2_OFFSET]) = []
    decide

theorem claim_C4_write_chain_witness :
    (keyOps (stm32_i2c_isr true ⟨0x80, 0, []⟩
        ⟨[⟨0x10, 1, [0, 0, 0], 3⟩], 1, [0xA, 0xB], 2, 0, 0, false, 2,
         IntState.waiting, 0⟩).2 = [sendstartOp] ∧
     (stm32_i2c_isr true ⟨0x80, 0, []⟩
        ⟨[⟨0x10, 1, [0, 0, 0], 3⟩], 1, [0xA, 0xB], 2, 0, 0, false, 2,
         IntState.waiting, 0⟩).1.dcnt = -1) ∧
    keyOps (stm32_i2c_isr true ⟨0x80, 0, []⟩
        ⟨[⟨0x10, 0, [0xA, 0xB], 2⟩], 0, [0xA, 0xB], 2, 0, 0, false, 2,
         IntState.waiting, 0⟩).2 = [sendstopOp] :=
  ⟨(claim_C4_write_chain true ⟨0x80, 0, []⟩
      ⟨[⟨0x10, 1, [0, 0, 0], 3⟩], 1, [0xA, 0xB], 2, 0, 0, false, 2,
       IntState.waiting, 0⟩
      (by decide) (by decide) (by decide) (by decide) (by decide)).2.1
      ⟨by decide, Or.inr (by decide)⟩,
   ((claim_C4_write_chain true ⟨0x80, 0, []⟩
      ⟨[⟨0x10, 0, [0xA, 0xB], 2⟩], 0, [0xA, 0xB], 2, 0, 0, false, 2,
       IntState.waiting, 0⟩
      (by decide) (by decide) (by decide) (by decide) (by decide)).1
      (by decide)).1⟩

theorem msgAdvance_intstate (s : I2cState) : (msgAdvance s).intstate = s.intstate := by
  unfold msgAdvance
  split <;> rfl

theorem addrHandling_no_load (s : I2cState) :
    (addrHandling s).1.flags = s.flags ∧
    (addrHandling s).1.total_msg_len = s.total_msg_len ∧
    (addrHandling s).1.intstate = s.intstate := by
  simp only [addrHandling]
  split_ifs <;> exact ⟨rfl, rfl, rfl⟩

theorem addrAckedRead_no_load (s : I2cState) :
    (addrAckedRead s).1.flags = s.flags ∧
    (addrAckedRead s).1.total_msg_len = s.total_msg_len ∧
    (addrAckedRead s).1.intstate = s.intstate := by
  simp only [addrAckedRead]
  split_ifs <;> exact ⟨rfl, rfl, rfl⟩

theorem writeMode_no_load (s : I2cState) :
    (writeMode s).1.flags = s.flags ∧
    (writeMode s).1.total_msg_len = s.total_msg_len ∧
    (writeMode s).1.intstate = s.intstate := by
  simp only [writeMode]
  split_ifs <;> exact ⟨rfl, rfl, rfl⟩

theorem readMode_no_load (sr1 d0 d1 : Nat) (s : I2cState) :
    (readMode sr1 d0 d1 s).1.flags = s.flags ∧
    (readMode sr1 d0 d1 s).1.total_msg_len = s.total_msg_len ∧
    (readMode sr1 d0 d1 s).1.intstate = s.intstate := by
  simp only [readMode]
  split_ifs <;> exact ⟨rfl, rfl, rfl⟩

/-- No dispatch branch reloads the current-message registers (flags,
total length) or touches the handshake state: only the message-advance
step does. -/
theorem i2cDispatch_no_load (polled : Bool) (sr1 d0 d1 : Nat) (s : I2cState) :
    (i2cDispatch polled sr1 d0 d1 s).1.flags = s.flags ∧
    (i2cDispatch polled sr1 d0 d1 s).1.total_msg_len = s.total_msg_len ∧
    (i2cDispatch polled sr1 d0 d1 s).1.intstate = s.intstate := by
  unfold i2cDispatch
  split_ifs
  · exact addrHandling_no_load s
  · exact ⟨rfl, rfl, rfl⟩
  · exact addrAckedRead_no_load s
  · exact writeMode_no_load s
  · exact readMode_no_load sr1 d0 d1 s
  · exact ⟨rfl, rfl, rfl⟩
  · exact ⟨rfl, rfl, rfl⟩
  · exact ⟨rfl, rfl, rfl⟩

theorem isr_no_load (polled : Bool) (hw : HwIn) (s : I2cState)
    (h : ¬(s.dcnt = -1 ∧ 0 < s.msgc)) :
    (stm32_i2c_isr polled hw s).1.flags = s.flags ∧
    (stm32_i2c_isr polled hw s).1.total_msg_len = s.total_msg_len := by
  have e1 := i2cDispatch_no_load polled hw.sr1 (hw.dr.getD 0 0) (hw.dr.getD 1 0)
    (msgAdvance { s with status := hw.sr1 })
  have e2 := i2cTerminate_frame polled hw.cr2
    (i2cDispatch polled hw.sr1 (hw.dr.getD 0 0) (hw.dr.getD 1 0)
      (msgAdvance { s with status := hw.sr1 }))
  have e3 : msgAdvance { s with status := hw.sr1 } = { s with status := hw.sr1 } :=
    msgAdvance_noop { s with status := hw.sr1 } h
  constructor
  · show (i2cTerminate polled hw.cr2
      (i2cDispatch polled hw.sr1 (hw.dr.getD 0 0) (hw.dr.getD 1 0)
        (msgAdvance { s with status := hw.sr1 }))).1.flags = s.flags
    rw [e2.2.2.2.2.1, e1.1, e3]
  · show (i2cTerminate polled hw.cr2
      (i2cDispatch polled hw.sr1 (hw.dr.getD 0 0) (hw.dr.getD 1 0)
        (msgAdvance { s with status := hw.sr1 }))).1.total_msg_len = s.total_msg_len
    rw [e2.2.2.2.2.2.1, e1.2.1, e3]

/-- Claim C6: the message-advance step runs exactly when the byte
counter equals -1 and messages remain; when it runs it copies the next
message's buffer, length (also as total-length snapshot) and flags into
session state, decrements the remaining count and advances the cursor
unless the count reached zero; when it does not run, a whole engine
invocation leaves the loaded flags and total-length snapshot untouched;
and the Orchestrator arms the transfer with the counter at -1. -/
theorem claim_C6_msg_advance (polled : Bool) (hw : HwIn) (s : I2cState)
    (msgs : List I2cMsg) (count : Nat) (s0 : I2cState) :
    (¬(s.dcnt = -1 ∧ 0 < s.msgc) →
      msgAdvance s = s ∧
      (stm32_i2c_isr polled hw s).1.flags = s.flags ∧
      (stm32_i2c_isr polled hw s).1.total_msg_len = s.total_msg_len) ∧
    (s.dcnt = -1 ∧ 0 < s.msgc →
      (msgAdvance s).buf = (s.msgv.headD defaultMsg).buffer ∧
      (msgAdvance s).pos = 0 ∧
      (msgAdvance s).dcnt = ((s.msgv.headD defaultMsg).length : Int) ∧
      (msgAdvance s).total_msg_len = (s.msgv.headD defaultMsg).length % 256 ∧
      (msgAdvance s).flags = (s.msgv.headD defaultMsg).flags ∧
      (msgAdvance s).msgc = s.msgc - 1 ∧
      (msgAdvance s).msgv = (if s.msgc - 1 = 0 then s.msgv else s.msgv.tail)) ∧
    (processArm msgs count s0).dcnt = -1 ∧
    (processArm msgs count s0).msgc = count ∧
    (processArm msgs count s0).msgv = msgs := by
  refine ⟨?_, ?_, rfl, rfl, rfl⟩
  · intro h
    exact ⟨msgAdvance_noop s h, (isr_no_load polled hw s h).1, (isr_no_load polled hw s h).2⟩
  · intro h
    have e : msgAdvance s =
        { s with buf := (s.msgv.headD defaultMsg).buffer
                 pos := 0
                 dcnt := ((s.msgv.headD defaultMsg).length : Int)
                 total_msg_len := (s.msgv.headD defaultMsg).length % 256
                 flags := (s.msgv.headD defaultMsg).flags
                 msgc := s.msgc - 1
                 msgv := if s.msgc - 1 = 0 then s.msgv else s.msgv.tail } := by
      unfold msgAdvance
      rw [if_pos h]
    rw [e]
    exact ⟨rfl, rfl, rfl, rfl, rfl, rfl, rfl⟩

theorem claim_C6_msg_advance_witness :
    (msgAdvance ⟨[⟨0x22, 1, [1, 2, 3], 3⟩, ⟨0x23, 0, [4], 1⟩], 2, [], 0, -1, 0, false, 0,
        IntState.waiting, 0⟩).dcnt = (3 : Nat) ∧
    (msgAdvance ⟨[⟨0x22, 1, [1, 2, 3], 3⟩, ⟨0x23, 0, [4], 1⟩], 2, [], 0, -1, 0, false, 0,
        IntState.waiting, 0⟩).msgc = 2 - 1 ∧
    msgAdvance ⟨[⟨0x22, 1, [1, 2, 3], 3⟩], 1, [9], 1, 4, 1, false, 3,
        IntState.waiting, 0⟩ =
      ⟨[⟨0x22, 1, [1, 2, 3], 3⟩], 1, [9], 1, 4, 1, false, 3, IntState.waiting, 0⟩ :=
  ⟨((claim_C6_msg_advance true ⟨0, 0, []⟩
      ⟨[⟨0x22, 1, [1, 2, 3], 3⟩, ⟨0x23, 0, [4], 1⟩], 2, [], 0, -1, 0, false, 0,
       IntState.waiting, 0⟩ [] 0
      ⟨[], 0, [], 0, 0, 0, false, 0, IntState.idle, 0⟩).2.1
      ⟨by decide, by decide⟩).2.2.1,
   ((claim_C6_msg_advance true ⟨0, 0, []⟩
      ⟨[⟨0x22, 1, [1, 2, 3], 3⟩, ⟨0x23, 0, [4], 1⟩], 2, [], 0, -1, 0, false, 0,
       IntState.waiting, 0⟩ [] 0
      ⟨[], 0, [], 0, 0, 0, false, 0, IntState.idle, 0⟩).2.1
      ⟨by decide, by decide⟩).2.2.2.2.2.1,
   ((claim_C6_msg_advance true ⟨0, 0, []⟩
      ⟨[⟨0x22, 1, [1, 2, 3], 3⟩], 1, [9], 1, 4, 1, false, 3, IntState.waiting, 0⟩ [] 0
      ⟨[], 0, [], 0, 0, 0, false, 0, IntState.idle, 0⟩).1
      (by decide)).1⟩

/- ## C7: status classification -/

theorem and_sub_eq_zero (x m sub : Nat) (hs : m &&& sub = sub) (h0 : x &&& m = 0) :
    x &&& sub = 0 := by
  rw [← hs, ← Nat.and_assoc, h0, Nat.zero_and]

/-- Claim C7 counterexample: after a Completion-Gate timeout,
`stm32_i2c_process` returns the seeded timeout error even when the final
status has no error bit and no busy bit set — the classification chain
assigns nothing and the call reports ETIMEDOUT, not success, refuting
the claim's "if no error bit and no busy bit is set, the transfer is
reported as succeeded" at the concrete status 0. -/
theorem claim_C7_counterexample :
    ((0 : Nat) &&& I2C_SR1_ERRORMASK = 0 ∧ (0 : Nat) &&& (I2C_SR2_BUSY <<< 16) = 0) ∧
    stm32_i2c_classify true 0 = errETIMEDOUT ∧ errETIMEDOUT ≠ 0 := by decide

/-- Claim C7 (amended): the final-status classification maps, in
precedence order, bus error to EIO, arbitration lost to EAGAIN,
acknowledge failure to ENXIO, overrun to EIO, PEC error to EPROTO and
hardware timeout to ETIME; with no error bit set but the (shifted) busy
bit set it reports EBUSY; with neither it reports success (0) when the
Completion Gate signalled completion, while after a Completion-Gate
timeout it reports the seeded timeout error ETIMEDOUT. -/
theorem claim_C7_classify (timedout : Bool) (status : Nat) :
    (status &&& I2C_SR1_BERR ≠ 0 → stm32_i2c_classify timedout status = errEIO) ∧
    (status &&& I2C_SR1_BERR = 0 ∧ status &&& I2C_SR1_ARLO ≠ 0 →
      stm32_i2c_classify timedout status = errEAGAIN) ∧
    (status &&& I2C_SR1_BERR = 0 ∧ status &&& I2C_SR1_ARLO = 0 ∧
     status &&& I2C_SR1_AF ≠ 0 → stm32_i2c_classify timedout status = errENXIO) ∧
    (status &&& I2C_SR1_BERR = 0 ∧ status &&& I2C_SR1_ARLO = 0 ∧
     status &&& I2C_SR1_AF = 0 ∧ status &&& I2C_SR1_OVR ≠ 0 →
      stm32_i2c_classify timedout status = errEIO) ∧
    (status &&& I2C_SR1_BERR = 0 ∧ status &&& I2C_SR1_ARLO = 0 ∧
     status &&& I2C_SR1_AF = 0 ∧ status &&& I2C_SR1_OVR = 0 ∧
     status &&& I2C_SR1_PECERR ≠ 0 → stm32_i2c_classify timedout status = errEPROTO) ∧
    (status &&& I2C_SR1_BERR = 0 ∧ status &&& I2C_SR1_ARLO = 0 ∧
     status &&& I2C_SR1_AF = 0 ∧ status &&& I2C_SR1_OVR = 0 ∧
     status &&& I2C_SR1_PECERR = 0 ∧ status &&& I2C_SR1_TIMEOUT ≠ 0 →
      stm32_i2c_classify timedout status = errETIME) ∧
    (status &&& I2C_SR1_ERRORMASK = 0 ∧ status &&& (I2C_SR2_BUSY <<< 16) ≠ 0 →
      stm32_i2c_classify timedout status = errEBUSY) ∧
    (status &&& I2C_SR1_ERRORMASK = 0 ∧ status &&& (I2C_SR2_BUSY <<< 16) = 0 →
      stm32_i2c_classify timedout status =
        (if timedout then errETIMEDOUT else 0)) := by
  refine ⟨?_, ?_, ?_, ?_, ?_, ?_, ?_, ?_⟩
  · intro h
    have hm : status &&& I2C_SR1_ERRORMASK ≠ 0 :=
      fun h0 => h (and_sub_eq_zero status _ _ (by decide) h0)
    simp only [stm32_i2c_classify]
    rw [if_pos hm, if_pos h]
  · rintro ⟨h1, h⟩
    have hm : status &&& I2C_SR1_ERRORMASK ≠ 0 :=
      fun h0 => h (and_sub_eq_zero status _ _ (by decide) h0)
    simp only [stm32_i2c_classify]
    rw [if_pos hm, if_neg (by simp [h1]), if_pos h]
  · rintro ⟨h1, h2, h⟩
    have hm : status &&& I2C_SR1_ERRORMASK ≠ 0 :=
      fun h0 => h (and_sub_eq_zero status _ _ (by decide) h0)
    simp only [stm32_i2c_classify]
    rw [if_pos hm, if_neg (by simp [h1]), if_neg (by simp [h2]), if_pos h]
  · rintro ⟨h1, h2, h3, h⟩
    have hm : status &&& I2C_SR1_ERRORMASK ≠ 0 :=
      fun h0 => h (and_sub_eq_zero status _ _ (by decide) h0)
    simp only [stm32_i2c_classify]
    rw [if_pos hm, if_neg (by simp [h1]), if_neg (by simp [h2]),
        if_neg (by simp [h3]), if_pos h]
  · rintro ⟨h1, h2, h3, h4, h⟩
    have hm : status &&& I2C_SR1_ERRORMASK ≠ 0 :=
      fun h0 => h (and_sub_eq_zero status _ _ (by decide) h0)
    simp only [stm32_i2c_classify]
    rw [if_pos hm, if_neg (by simp [h1]), if_neg (by simp [h2]),
        if_neg (by simp [h3]), if_neg (by simp [h4]), if_pos h]
  · rintro ⟨h1, h2, h3, h4, h5, h⟩
    have hm : status &&& I2C_SR1_ERRORMASK ≠ 0 :=
      fun h0 => h (and_sub_eq_zero status _ _ (by decide) h0)
    simp only [stm32_i2c_classify]
    rw [if_pos hm, if_neg (by simp [h1]), if_neg (by simp [h2]),
        if_neg (by simp [h3]), if_neg (by simp [h4]), if_neg (by simp [h5]),
        if_pos h]
  · rintro ⟨he, hb⟩
    simp only [stm32_i2c_classify]
    rw [if_neg (by simp [he]), if_pos hb]
  · rintro ⟨he, hb⟩
    simp only [stm32_i2c_classify]
    rw [if_neg (by simp [he]), if_neg (by simp [hb])]

theorem claim_C7_classify_witness :
    stm32_i2c_classify false 0x0100 = errEIO ∧
    stm32_i2c_classify true 0x0200 = errEAGAIN ∧
    stm32_i2c_classify false 0x0400 = errENXIO ∧
    stm32_i2c_classify false 0x0800 = errEIO ∧
    stm32_i2c_classify false 0x1000 = errEPROTO ∧
    stm32_i2c_classify false 0x4000 = errETIME ∧
    stm32_i2c_classify true 0x20000 = errEBUSY ∧
    stm32_i2c_classify false 0x0042 = 0 ∧
    stm32_i2c_classify true 0x0042 = errETIMEDOUT :=
  ⟨(claim_C7_classify false 0x0100).1 (by decide),
   (claim_C7_classify true 0x0200).2.1 ⟨by decide, by decide⟩,
   (claim_C7_classify false 0x0400).2.2.1 ⟨by decide, by decide, by decide⟩,
   (claim_C7_classify false 0x0800).2.2.2.1
     ⟨by decide, by decide, by decide, by decide⟩,
   (claim_C7_classify false 0x1000).2.2.2.2.1
     ⟨by decide, by decide, by decide, by decide, by decide⟩,
   (claim_C7_classify false 0x4000).2.2.2.2.2.1
     ⟨by decide, by decide, by decide, by decide, by decide, by decide⟩,
   (claim_C7_classify true 0x20000).2.2.2.2.2.2.1 ⟨by decide, by decide⟩,
   (claim_C7_classify false 0x0042).2.2.2.2.2.2.2 ⟨by decide, by decide⟩,
   (claim_C7_classify true 0x0042).2.2.2.2.2.2.2 ⟨by decide, by decide⟩⟩

theorem and_pow_ne_zero_of_testBit (x i : Nat) (h : x.testBit i = true) :
    x &&& 2 ^ i ≠ 0 := by
  rw [Nat.and_two_pow, h]
  simp

theorem i2cCCR_std (pclk frequency : Nat) (duty : Bool) (hf : frequency ≤ 100000)
    (hq : pclk / (frequency * 2) < 65536) :
    i2cCCR pclk duty frequency = Nat.max 4 (pclk / (2 * frequency)) := by
  simp only [i2cCCR]
  rw [if_pos hf, Nat.shiftLeft_eq, pow_one, Nat.mod_eq_of_lt hq,
      Nat.mul_comm 2 frequency]
  rcases Nat.lt_or_ge (pclk / (frequency * 2)) 4 with h | h
  · rw [if_pos h]
    exact (Nat.max_eq_left (by omega)).symm
  · rw [if_neg (by omega)]
    exact (Nat.max_eq_right h).symm

theorem i2cCCR_fast (pclk frequency : Nat) (hf : 100000 < frequency)
    (hq : pclk / (frequency * 3) < 65536) :
    i2cCCR pclk false frequency = I2C_CCR_FS ||| Nat.max 1 (pclk / (3 * frequency)) := by
  simp only [i2cCCR, Bool.false_eq_true, if_false]
  rw [if_neg (by omega), Nat.mod_eq_of_lt hq, Nat.mul_comm 3 frequency]
  congr 1
  rcases Nat.eq_zero_or_pos (pclk / (frequency * 3)) with h | h
  · rw [if_pos (by omega), h]
    decide
  · rw [if_neg (by omega)]
    exact (Nat.max_eq_right h).symm

theorem i2cCCR_fast_duty (pclk frequency : Nat) (hf : 100000 < frequency)
    (hq : pclk / (frequency * 25) < 65536) :
    i2cCCR pclk true frequency =
      I2C_CCR_DUTY ||| I2C_CCR_FS ||| Nat.max 1 (pclk / (25 * frequency)) := by
  simp only [i2cCCR, if_true]
  rw [if_neg (by omega), Nat.mod_eq_of_lt hq, Nat.mul_comm 25 frequency]
  congr 1
  rcases Nat.eq_zero_or_pos (pclk / (frequency * 25)) with h | h
  · rw [if_pos (by omega), h]
    decide
  · rw [if_neg (by omega)]
    exact (Nat.max_eq_right h).symm

/-- Claim C9: for f at or below 100 kHz the divider register is
programmed to max(4, pclk/(2f)) and the rise-time register to
pclk-in-MHz + 1; above 100 kHz the divider is max(1, pclk/(3f)) with the
fast-mode bit set (or max(1, pclk/(25f)) with both duty and fast-mode
bits under the alternate duty option) and the rise-time register is
(pclk-in-MHz * 300)/1000 + 1, all in truncated integer arithmetic; the
operation list disables the peripheral first and finally restores the
CR1 value read on entry (controller-enable state included). -/
theorem claim_C9_setclock (pclk frequency cr1 : Nat) (duty : Bool) :
    (frequency ≤ 100000 → pclk / (frequency * 2) < 65536 →
     pclk / 1000000 + 1 < 65536 →
      i2cCCR pclk duty frequency = Nat.max 4 (pclk / (2 * frequency)) ∧
      i2cTRISE pclk frequency = pclk / 1000000 + 1) ∧
    (100000 < frequency → pclk / 1000000 < 65536 →
      (duty = false → pclk / (frequency * 3) < 65536 →
        i2cCCR pclk duty frequency = I2C_CCR_FS ||| Nat.max 1 (pclk / (3 * frequency)) ∧
        i2cCCR pclk duty frequency &&& I2C_CCR_FS ≠ 0) ∧
      (duty = true → pclk / (frequency * 25) < 65536 →
        i2cCCR pclk duty frequency =
          I2C_CCR_DUTY ||| I2C_CCR_FS ||| Nat.max 1 (pclk / (25 * frequency)) ∧
        i2cCCR pclk duty frequency &&& I2C_CCR_FS ≠ 0 ∧
        i2cCCR pclk duty frequency &&& I2C_CCR_DUTY ≠ 0) ∧
      i2cTRISE pclk frequency = (pclk / 1000000) * 300 / 1000 + 1) ∧
    stm32_i2c_setclock pclk duty cr1 frequency =
      [RegOp.get STM32_I2C_CR1_OFFSET,
       RegOp.put STM32_I2C_CR1_OFFSET (cr1 &&& (65535 - I2C_CR1_PE)),
       RegOp.put STM32_I2C_CCR_OFFSET (i2cCCR pclk duty frequency),
       RegOp.put STM32_I2C_TRISE_OFFSET (i2cTRISE pclk frequency),
       RegOp.put STM32_I2C_OAR1_OFFSET I2C_OAR1_ONE,
       RegOp.put STM32_I2C_CR1_OFFSET cr1] := by
  refine ⟨?_, ?_, rfl⟩
  · intro hf hq ht
    refine ⟨i2cCCR_std pclk frequency duty hf hq, ?_⟩
    simp only [i2cTRISE]
    rw [if_pos hf, Nat.mod_eq_of_lt (show pclk / 1000000 < 65536 by omega),
        Nat.mod_eq_of_lt ht]
  · intro hf hm
    refine ⟨?_, ?_, ?_⟩
    · intro hd hq
      subst hd
      refine ⟨i2cCCR_fast pclk frequency hf hq, ?_⟩
      rw [i2cCCR_fast pclk frequency hf hq]
      show (I2C_CCR_FS ||| Nat.max 1 (pclk / (3 * frequency))) &&& 2 ^ 15 ≠ 0
      apply and_pow_ne_zero_of_testBit
      rw [Nat.testBit_or]
      have : Nat.testBit I2C_CCR_FS 15 = true := by decide
      rw [this]
      rfl
    · intro hd hq
      subst hd
      refine ⟨i2cCCR_fast_duty pclk frequency hf hq, ?_, ?_⟩
      · rw [i2cCCR_fast_duty pclk frequency hf hq]
        show (I2C_CCR_DUTY ||| I2C_CCR_FS ||| Nat.max 1 (pclk / (25 * frequency)))
            &&& 2 ^ 15 ≠ 0
        apply and_pow_ne_zero_of_testBit
        rw [Nat.testBit_or, Nat.testBit_or]
        have : Nat.testBit I2C_CCR_FS 15 = true := by decide
        rw [this]
        rfl
      · rw [i2cCCR_fast_duty pclk frequency hf hq]
        show (I2C_CCR_DUTY ||| I2C_CCR_FS ||| Nat.max 1 (pclk / (25 * frequency)))
            &&& 2 ^ 14 ≠ 0
        apply and_pow_ne_zero_of_testBit
        rw [Nat.testBit_or, Nat.testBit_or]
        have : Nat.testBit I2C_CCR_DUTY 14 = true := by decide
        rw [this]
        rfl
    · simp only [i2cTRISE]
      rw [if_neg (by omega), Nat.mod_eq_of_lt hm,
          Nat.mod_eq_of_lt (show (pclk / 1000000) * 300 / 1000 + 1 < 65536 by omega)]

theorem claim_C9_setclock_witness :
    (i2cCCR 36000000 false 100000 = Nat.max 4 (36000000 / (2 * 100000)) ∧
     i2cTRISE 36000000 100000 = 36000000 / 1000000 + 1) ∧
    (i2cCCR 36000000 false 400000 = I2C_CCR_FS ||| Nat.max 1 (36000000 / (3 * 400000)) ∧
     i2cCCR 36000000 false 400000 &&& I2C_CCR_FS ≠ 0) ∧
    i2cTRISE 36000000 400000 = (36000000 / 1000000) * 300 / 1000 + 1 :=
  ⟨(claim_C9_setclock 36000000 100000 0 false).1 (by decide) (by norm_num) (by norm_num),
   ((claim_C9_setclock 36000000 400000 0 false).2.1 (by decide) (by norm_num)).1
     rfl (by norm_num),
   ((claim_C9_setclock 36000000 400000 0 false).2.1 (by decide) (by norm_num)).2.2⟩

/-- The trace-record behaviour as the spec describes it, with no
filtering of event codes: every call stores the event and parameter into
the current entry, and advances the index (clearing the new entry)
whenever capacity remains. -/
def traceeventAlways (ntrace : Nat) (event parm : Nat) (t : TraceBuf) : TraceBuf :=
  let old := t.trace.getD t.tndx emptyTraceEntry
  let stored := t.trace.set t.tndx { old with event := event, parm := parm }
  if t.tndx < ntrace - 1 then
    { tndx := t.tndx + 1, trace := stored.set (t.tndx + 1) emptyTraceEntry }
  else
    { t with trace := stored }

/-- Claim C10: the guard `event != I2CEVENT_NONE ||
event != I2CEVENT_POLL_DEV_NOT_RDY` is true for every event code (the
two constants are distinct), so `stm32_i2c_traceevent` behaves as the
unconditional store-and-advance operation on every call: no event code
is ever filtered out. -/
theorem claim_C10_traceevent (ntrace event parm : Nat) (t : TraceBuf) :
    (event ≠ I2CEVENT_NONE ∨ event ≠ I2CEVENT_POLL_DEV_NOT_RDY) ∧
    stm32_i2c_traceevent ntrace event parm t = traceeventAlways ntrace event parm t := by
  have hg : event ≠ I2CEVENT_NONE ∨ event ≠ I2CEVENT_POLL_DEV_NOT_RDY := by
    by_cases h : event = I2CEVENT_NONE
    · right
      rw [h]
      decide
    · left
      exact h
  refine ⟨hg, ?_⟩
  unfold stm32_i2c_traceevent traceeventBody traceeventAlways
  rw [if_pos hg]
  by_cases hc : ntrace - 1 ≤ t.tndx
  · rw [if_pos hc, if_neg (by omega)]
  · rw [if_neg hc, if_pos (by omega)]

theorem writeMode_flag_error (s : I2cState) (hd : s.dcnt = 0) (hm : 0 < s.msgc)
    (hf0 : (s.msgv.headD defaultMsg).flags ≠ 0)
    (hfr : (s.msgv.headD defaultMsg).flags &&& I2C_M_READ = 0)
    (hfn : (s.msgv.headD defaultMsg).flags &&& I2C_M_NORESTART = 0) :
    writeMode s =
      ({ s with check_addr_ACK := false }, [RegOp.get STM32_I2C_SR2_OFFSET]) := by
  simp only [writeMode]
  rw [if_neg (by show ¬(1 ≤ s.dcnt); omega), if_pos hd,
      if_neg (by show ¬(s.msgc = 0); omega),
      if_neg (by rintro ⟨_, h | h⟩; exacts [hf0 h, h hfr]),
      if_neg (by rintro ⟨_, h⟩; exact h hfn)]

/-- Claim C8 (amended): an invocation that enters the write branch with
the byte counter at 0, messages remaining, and a next message whose
flags are neither zero, nor contain the read flag, nor the no-restart
flag, performs no register write at all (only the SR1 and SR2 status
reads) and leaves the byte counter, message count, cursor, buffer,
position and handshake state unchanged — but it does clear the
pending-ACK flag on write-branch entry (the flag is false afterwards
whatever it was), and the termination check does not fire. -/
theorem claim_C8_flag_error_frame (polled : Bool) (hw : HwIn) (s : I2cState)
    (hsb : hw.sr1 &&& I2C_SR1_SB = 0)
    (hnb : hw.sr1 &&& I2C_SR1_ADDR ≠ 0 ∨ s.check_addr_ACK = false)
    (hwr : s.flags &&& I2C_M_READ = 0)
    (htx : hw.sr1 &&& (I2C_SR1_ADDR ||| I2C_SR1_TXE) ≠ 0)
    (hd : s.dcnt = 0)
    (hm : 0 < s.msgc)
    (hf0 : (s.msgv.headD defaultMsg).flags ≠ 0)
    (hfr : (s.msgv.headD defaultMsg).flags &&& I2C_M_READ = 0)
    (hfn : (s.msgv.headD defaultMsg).flags &&& I2C_M_NORESTART = 0) :
    (stm32_i2c_isr polled hw s).1 =
      { s with check_addr_ACK := false, status := hw.sr1 } ∧
    (stm32_i2c_isr polled hw s).2 =
      [RegOp.get STM32_I2C_SR1_OFFSET, RegOp.get STM32_I2C_SR2_OFFSET] ∧
    hasRegWrite (stm32_i2c_isr polled hw s).2 = false := by
  have hadv : ¬(s.dcnt = -1 ∧ 0 < s.msgc) := by rintro ⟨h, _⟩; omega
  rw [isr_write_entry polled hw s hadv hsb hnb hwr htx,
      writeMode_flag_error { s with status := hw.sr1 } hd hm hf0 hfr hfn,
      i2cTerminate_noop _ _ _
        (by show ¬(s.dcnt = -1 ∧ s.msgc = 0); rintro ⟨h, _⟩; omega)]
  refine ⟨rfl, rfl, ?_⟩
  show hasRegWrite [RegOp.get STM32_I2C_SR1_OFFSET, RegOp.get STM32_I2C_SR2_OFFSET] = false
  decide

theorem claim_C8_flag_error_frame_witness :
    (stm32_i2c_isr true ⟨0x80, 0, []⟩
        ⟨[⟨0x10, 2, [], 1⟩], 1, [], 0, 0, 0, false, 0, IntState.waiting, 0⟩).1 =
      ⟨[⟨0x10, 2, [], 1⟩], 1, [], 0, 0, 0, false, 0, IntState.waiting, 0x80⟩ ∧
    (stm32_i2c_isr true ⟨0x80, 0, []⟩
        ⟨[⟨0x10, 2, [], 1⟩], 1, [], 0, 0, 0, false, 0, IntState.waiting, 0⟩).2 =
      [RegOp.get STM32_I2C_SR1_OFFSET, RegOp.get STM32_I2C_SR2_OFFSET] ∧
    hasRegWrite (stm32_i2c_isr true ⟨0x80, 0, []⟩
        ⟨[⟨0x10, 2, [], 1⟩], 1, [], 0, 0, 0, false, 0, IntState.waiting, 0⟩).2 = false :=
  claim_C8_flag_error_frame true ⟨0x80, 0, []⟩
    ⟨[⟨0x10, 2, [], 1⟩], 1, [], 0, 0, 0, false, 0, IntState.waiting, 0⟩
    (by decide) (Or.inr (by decide)) (by decide) (by decide) (by decide)
    (by decide) (by decide) (by decide) (by decide)

/-- Claim C8 counterexample: a concrete invocation that enters the write
branch at counter 0 with a next message carrying only the unrecognized
ten-bit flag, starting with the pending-ACK flag set: the invocation
clears the flag, so the claimed frame condition "pending-ACK flag
unchanged" fails on the code. -/
theorem claim_C8_counterexample :
    I2cState.check_addr_ACK
      ⟨[⟨0x10, 2, [], 1⟩], 1, [], 0, 0, 0, true, 0, IntState.waiting, 0⟩ = true ∧
    I2cState.check_addr_ACK
      (stm32_i2c_isr true ⟨0x80, 0, []⟩
        ⟨[⟨0x10, 2, [], 1⟩], 1, [], 0, 0, 0, true, 0, IntState.waiting, 0⟩).1 = false := by
  decide

theorem i2cTerminate_polled_fire (cr2 : Nat) (sp : I2cState × List RegOp)
    (h : sp.1.dcnt = -1 ∧ sp.1.msgc = 0) :
    i2cTerminate true cr2 sp =
      ({ sp.1 with msgv := ([] : List I2cMsg), intstate := IntState.done }, sp.2) := by
  simp only [i2cTerminate]
  rw [if_pos h, if_pos trivial]

theorem i2cTerminate_intr_fire (cr2 : Nat) (sp : I2cState × List RegOp)
    (h : sp.1.dcnt = -1 ∧ sp.1.msgc = 0) (hww : sp.1.intstate = IntState.waiting) :
    i2cTerminate false cr2 sp =
      ({ sp.1 with msgv := ([] : List I2cMsg), intstate := IntState.done },
       sp.2 ++ [RegOp.get STM32_I2C_CR2_OFFSET,
                RegOp.put STM32_I2C_CR2_OFFSET
                  ((cr2 &&& (4294967295 - I2C_CR2_ALLINTS)) % 65536)]) := by
  simp only [i2cTerminate]
  rw [if_pos h, if_neg (by decide : ¬(false = true)), if_pos hww]

/-- Whenever the engine reaches counter -1 with no messages remaining in
a WAITING invocation, it clears the message pointer and transitions the
handshake WAITING to DONE; in interrupt mode it also writes CR2 with all
I2C interrupt-enable bits cleared. -/
theorem isr_shutdown (polled : Bool) (hw : HwIn) (s : I2cState)
    (hw1 : s.intstate = IntState.waiting)
    (hd1 : (stm32_i2c_isr polled hw s).1.dcnt = -1)
    (hm1 : (stm32_i2c_isr polled hw s).1.msgc = 0) :
    (stm32_i2c_isr polled hw s).1.msgv = [] ∧
    (stm32_i2c_isr polled hw s).1.intstate = IntState.done ∧
    (polled = false →
      RegOp.put STM32_I2C_CR2_OFFSET ((hw.cr2 &&& (4294967295 - I2C_CR2_ALLINTS)) % 65536)
        ∈ (stm32_i2c_isr polled hw s).2) := by
  have hd1' : (i2cTerminate polled hw.cr2 (i2cDispatch polled hw.sr1 (hw.dr.getD 0 0)
      (hw.dr.getD 1 0) (msgAdvance { s with status := hw.sr1 }))).1.dcnt = -1 := hd1
  have hm1' : (i2cTerminate polled hw.cr2 (i2cDispatch polled hw.sr1 (hw.dr.getD 0 0)
      (hw.dr.getD 1 0) (msgAdvance { s with status := hw.sr1 }))).1.msgc = 0 := hm1
  rw [(i2cTerminate_frame _ _ _).1] at hd1'
  rw [(i2cTerminate_frame _ _ _).2.1] at hm1'
  have hint : (i2cDispatch polled hw.sr1 (hw.dr.getD 0 0) (hw.dr.getD 1 0)
      (msgAdvance { s with status := hw.sr1 })).1.intstate = IntState.waiting := by
    rw [(i2cDispatch_no_load _ _ _ _ _).2.2, msgAdvance_intstate]
    exact hw1
  cases polled
  · have e : stm32_i2c_isr false hw s =
        ({ (i2cDispatch false hw.sr1 (hw.dr.getD 0 0) (hw.dr.getD 1 0)
             (msgAdvance { s with status := hw.sr1 })).1 with
           msgv := ([] : List I2cMsg)
           intstate := IntState.done },
         RegOp.get STM32_I2C_SR1_OFFSET ::
           ((i2cDispatch false hw.sr1 (hw.dr.getD 0 0) (hw.dr.getD 1 0)
              (msgAdvance { s with status := hw.sr1 })).2 ++
            [RegOp.get STM32_I2C_CR2_OFFSET,
             RegOp.put STM32_I2C_CR2_OFFSET
               ((hw.cr2 &&& (4294967295 - I2C_CR2_ALLINTS)) % 65536)])) := by
      show ((i2cTerminate false hw.cr2 (i2cDispatch false hw.sr1 (hw.dr.getD 0 0)
          (hw.dr.getD 1 0) (msgAdvance { s with status := hw.sr1 }))).1,
        RegOp.get STM32_I2C_SR1_OFFSET ::
          (i2cTerminate false hw.cr2 (i2cDispatch false hw.sr1 (hw.dr.getD 0 0)
            (hw.dr.getD 1 0) (msgAdvance { s with status := hw.sr1 }))).2) = _
      rw [i2cTerminate_intr_fire hw.cr2 _ ⟨hd1', hm1'⟩ hint]
    rw [e]
    refine ⟨rfl, rfl, fun _ => ?_⟩
    simp [List.mem_append]
  · have e : stm32_i2c_isr true hw s =
        ({ (i2cDispatch true hw.sr1 (hw.dr.getD 0 0) (hw.dr.getD 1 0)
             (msgAdvance { s with status := hw.sr1 })).1 with
           msgv := ([] : List I2cMsg)
           intstate := IntState.done },
         RegOp.get STM32_I2C_SR1_OFFSET ::
           (i2cDispatch true hw.sr1 (hw.dr.getD 0 0) (hw.dr.getD 1 0)
             (msgAdvance { s with status := hw.sr1 })).2) := by
      show ((i2cTerminate true hw.cr2 (i2cDispatch true hw.sr1 (hw.dr.getD 0 0)
          (hw.dr.getD 1 0) (msgAdvance { s with status := hw.sr1 }))).1,
        RegOp.get STM32_I2C_SR1_OFFSET ::
          (i2cTerminate true hw.cr2 (i2cDispatch true hw.sr1 (hw.dr.getD 0 0)
            (hw.dr.getD 1 0) (msgAdvance { s with status := hw.sr1 }))).2) = _
      rw [i2cTerminate_polled_fire hw.cr2 _ ⟨hd1', hm1'⟩]
    rw [e]
    exact ⟨rfl, rfl, fun h => absurd h (by decide)⟩

/-- If a polled invocation sets the handshake to DONE, either it was
already DONE or the shutdown fired, leaving the terminal field values. -/
theorem isr_done_polled (hw : HwIn) (s : I2cState)
    (h : (stm32_i2c_isr true hw s).1.intstate = IntState.done) :
    s.intstate = IntState.done ∨
    ((stm32_i2c_isr true hw s).1.dcnt = -1 ∧ (stm32_i2c_isr true hw s).1.msgc = 0 ∧
     (stm32_i2c_isr true hw s).1.msgv = []) := by
  by_cases hc : (i2cDispatch true hw.sr1 (hw.dr.getD 0 0) (hw.dr.getD 1 0)
      (msgAdvance { s with status := hw.sr1 })).1.dcnt = -1 ∧
      (i2cDispatch true hw.sr1 (hw.dr.getD 0 0) (hw.dr.getD 1 0)
      (msgAdvance { s with status := hw.sr1 })).1.msgc = 0
  · right
    have e : stm32_i2c_isr true hw s =
        ({ (i2cDispatch true hw.sr1 (hw.dr.getD 0 0) (hw.dr.getD 1 0)
             (msgAdvance { s with status := hw.sr1 })).1 with
           msgv := ([] : List I2cMsg)
           intstate := IntState.done },
         RegOp.get STM32_I2C_SR1_OFFSET ::
           (i2cDispatch true hw.sr1 (hw.dr.getD 0 0) (hw.dr.getD 1 0)
             (msgAdvance { s with status := hw.sr1 })).2) := by
      show ((i2cTerminate true hw.cr2 (i2cDispatch true hw.sr1 (hw.dr.getD 0 0)
          (hw.dr.getD 1 0) (msgAdvance { s with status := hw.sr1 }))).1,
        RegOp.get STM32_I2C_SR1_OFFSET ::
          (i2cTerminate true hw.cr2 (i2cDispatch true hw.sr1 (hw.dr.getD 0 0)
            (hw.dr.getD 1 0) (msgAdvance { s with status := hw.sr1 }))).2) = _
      rw [i2cTerminate_polled_fire hw.cr2 _ hc]
    rw [e]
    exact ⟨hc.1, hc.2, rfl⟩
  · left
    have e : (stm32_i2c_isr true hw s).1 =
        (i2cDispatch true hw.sr1 (hw.dr.getD 0 0) (hw.dr.getD 1 0)
          (msgAdvance { s with status := hw.sr1 })).1 := by
      show (i2cTerminate true hw.cr2 (i2cDispatch true hw.sr1 (hw.dr.getD 0 0)
          (hw.dr.getD 1 0) (msgAdvance { s with status := hw.sr1 }))).1 = _
      rw [i2cTerminate_noop true hw.cr2 _ hc]
    rw [e, (i2cDispatch_no_load _ _ _ _ _).2.2, msgAdvance_intstate] at h
    exact h

theorem pollLoop_done (hws : List HwIn) (s : I2cState)
    (h : (pollLoop hws s).intstate = IntState.done) :
    s.intstate = IntState.done ∨
    ((pollLoop hws s).dcnt = -1 ∧ (pollLoop hws s).msgc = 0 ∧
     (pollLoop hws s).msgv = []) := by
  induction hws generalizing s with
  | nil => exact Or.inl h
  | cons hw rest ih =>
    simp only [pollLoop] at h ⊢
    by_cases hc : (stm32_i2c_isr true hw s).1.intstate = IntState.done
    · rw [if_pos hc] at h ⊢
      rcases isr_done_polled hw s hc with h1 | h1
      · exact Or.inl h1
      · exact Or.inr h1
    · rw [if_neg hc] at h ⊢
      rcases ih ((stm32_i2c_isr true hw s).1) h with h1 | h1
      · exact absurd h1 hc
      · exact Or.inr h1

/-- Claim C5 (amended): after a terminal outcome signalled through the
Completion Gate — the polled wait returns success — the byte counter is
-1, no messages remain and the message pointer is cleared (after a
Completion-Gate timeout the counter and count keep whatever mid-transfer
values they had; see the counterexample); and whenever the engine
reaches counter -1 with no messages remaining in a WAITING invocation it
clears the message pointer and moves the handshake WAITING to DONE, in
interrupt mode also writing CR2 with all interrupt sources disabled. -/
theorem claim_C5_terminal (hws : List HwIn) (s0 : I2cState)
    (polled : Bool) (hw : HwIn) (s : I2cState) :
    ((stm32_i2c_sem_waitdone hws s0).2 = 0 →
      (stm32_i2c_sem_waitdone hws s0).1.dcnt = -1 ∧
      (stm32_i2c_sem_waitdone hws s0).1.msgc = 0 ∧
      (stm32_i2c_sem_waitdone hws s0).1.msgv = []) ∧
    (s.intstate = IntState.waiting →
     (stm32_i2c_isr polled hw s).1.dcnt = -1 →
     (stm32_i2c_isr polled hw s).1.msgc = 0 →
      (stm32_i2c_isr polled hw s).1.msgv = [] ∧
      (stm32_i2c_isr polled hw s).1.intstate = IntState.done ∧
      (polled = false →
        RegOp.put STM32_I2C_CR2_OFFSET
            ((hw.cr2 &&& (4294967295 - I2C_CR2_ALLINTS)) % 65536)
          ∈ (stm32_i2c_isr polled hw s).2)) := by
  refine ⟨?_, fun h1 h2 h3 => isr_shutdown polled hw s h1 h2 h3⟩
  intro hr
  by_cases hdone : (pollLoop hws { s0 with intstate := IntState.waiting }).intstate =
      IntState.done
  · rcases pollLoop_done hws { s0 with intstate := IntState.waiting } hdone with h | h
    · have h' : IntState.waiting = IntState.done := h
      exact absurd h' (by decide)
    · exact ⟨h.1, h.2.1, h.2.2⟩
  · have e : (stm32_i2c_sem_waitdone hws s0).2 = -(errETIMEDOUT : Int) := by
      show (if (pollLoop hws { s0 with intstate := IntState.waiting }).intstate =
          IntState.done then (0 : Int) else -(errETIMEDOUT : Int)) = -(errETIMEDOUT : Int)
      rw [if_neg hdone]
    rw [e] at hr
    exact absurd hr (by decide)

theorem claim_C5_terminal_witness :
    ((stm32_i2c_sem_waitdone [⟨1, 0, []⟩, ⟨2, 0, []⟩, ⟨0x40, 0, [0x5A]⟩]
        (processArm [⟨0x48, 1, [0], 1⟩] 1
          ⟨[], 0, [], 0, 0, 0, false, 0, IntState.idle, 0⟩)).1.dcnt = -1 ∧
     (stm32_i2c_sem_waitdone [⟨1, 0, []⟩, ⟨2, 0, []⟩, ⟨0x40, 0, [0x5A]⟩]
        (processArm [⟨0x48, 1, [0], 1⟩] 1
          ⟨[], 0, [], 0, 0, 0, false, 0, IntState.idle, 0⟩)).1.msgc = 0 ∧
     (stm32_i2c_sem_waitdone [⟨1, 0, []⟩, ⟨2, 0, []⟩, ⟨0x40, 0, [0x5A]⟩]
        (processArm [⟨0x48, 1, [0], 1⟩] 1
          ⟨[], 0, [], 0, 0, 0, false, 0, IntState.idle, 0⟩)).1.msgv = []) ∧
    ((stm32_i2c_isr false ⟨0x40, 0, [0x5A]⟩
        ⟨[⟨0x48, 1, [0], 1⟩], 0, [0], 0, 0, 1, false, 1, IntState.waiting, 0⟩).1.msgv = [] ∧
     (stm32_i2c_isr false ⟨0x40, 0, [0x5A]⟩
        ⟨[⟨0x48, 1, [0], 1⟩], 0, [0], 0, 0, 1, false, 1, IntState.waiting, 0⟩).1.intstate =
       IntState.done ∧
     (false = false →
       RegOp.put STM32_I2C_CR2_OFFSET ((0 &&& (4294967295 - I2C_CR2_ALLINTS)) % 65536)
         ∈ (stm32_i2c_isr false ⟨0x40, 0, [0x5A]⟩
             ⟨[⟨0x48, 1, [0], 1⟩], 0, [0], 0, 0, 1, false, 1, IntState.waiting, 0⟩).2)) :=
  ⟨(claim_C5_terminal [⟨1, 0, []⟩, ⟨2, 0, []⟩, ⟨0x40, 0, [0x5A]⟩]
      (processArm [⟨0x48, 1, [0], 1⟩] 1
        ⟨[], 0, [], 0, 0, 0, false, 0, IntState.idle, 0⟩)
      false ⟨0x40, 0, [0x5A]⟩
      ⟨[⟨0x48, 1, [0], 1⟩], 0, [0], 0, 0, 1, false, 1, IntState.waiting, 0⟩).1 (by decide),
   (claim_C5_terminal [⟨1, 0, []⟩, ⟨2, 0, []⟩, ⟨0x40, 0, [0x5A]⟩]
      (processArm [⟨0x48, 1, [0], 1⟩] 1
        ⟨[], 0, [], 0, 0, 0, false, 0, IntState.idle, 0⟩)
      false ⟨0x40, 0, [0x5A]⟩
      ⟨[⟨0x48, 1, [0], 1⟩], 0, [0], 0, 0, 1, false, 1, IntState.waiting, 0⟩).2
      (by decide) (by decide) (by decide)⟩

/-- Claim C5 counterexample: a Completion-Gate timeout is a terminal
outcome of `stm32_i2c_process`, yet after a timed-out polled wait on a
one-byte write whose hardware never raises a status bit, the byte
counter is left at 1, not at the claimed between-messages sentinel -1. -/
theorem claim_C5_counterexample :
    (stm32_i2c_sem_waitdone [⟨0, 0, []⟩]
        (processArm [⟨0x10, 0, [0xAA], 1⟩] 1
          ⟨[], 0, [], 0, 0, 0, false, 0, IntState.idle, 0⟩)).2 ≠ 0 ∧
    (stm32_i2c_sem_waitdone [⟨0, 0, []⟩]
        (processArm [⟨0x10, 0, [0xAA], 1⟩] 1
          ⟨[], 0, [], 0, 0, 0, false, 0, IntState.idle, 0⟩)).1.dcnt = 1 := by
  decide
